import Mathlib

/-!
Verification development for the LuckeePass vault engine
(`src/core/password_manager.py`, `src/core/encryption_manager.py`,
`src/core/user_manager.py`, `src/core/password_generator.py` and the five
record models under `src/models/`).

Modelling conventions:
* Byte strings are `List Nat`.
* The external cryptographic library (`cryptography.fernet.Fernet` over a
  PBKDF2-HMAC-SHA256 key) is modelled as ideal authenticated encryption:
  a key is the pair (master password, salt) — PBKDF2 is deterministic and
  treated as injective — and a token records the key it was encrypted
  under, its plaintext, and a tamper counter.  `Fernet.decrypt` succeeds
  exactly when the token is untampered and the key matches, which is the
  guarantee the source relies on ("wrong password or corrupted token fails
  loudly").
* `base64.b64encode`/`b64decode` and UTF-8 `encode`/`decode` are injective
  with left inverses, so the serialized dictionaries carry the underlying
  bytes/strings directly; a token's plaintext is tagged with whether the
  source encrypted a (base64 or plain) string or raw bytes.
* `json.dumps`/`json.loads` over the envelope dictionary are modelled by a
  concrete injective serializer into `List Nat` together with its parser
  (`encodeEnvelope`/`decodeEnvelope`); `json.loads` is a left inverse of
  `json.dumps`, which the pair realizes.
* `datetime.now().isoformat()` is an explicit `now : String` parameter;
  `secrets.choice` and `os.urandom` are explicit draw parameters.
-/

/-- Key produced by `EncryptionManager._derive_key`: PBKDF2-HMAC-SHA256 of
(master password, salt) with 100000 iterations, deterministic and treated
as injective, so the key is modelled by the pair itself. -/
structure FKey where
  password : String
  salt : List Nat
deriving DecidableEq

/-- Plaintext handed to `Fernet.encrypt`: the source either UTF-8-encodes a
plain string (`data.encode()`) or encrypts the base64 form of raw bytes
(`FileEntry.file_data`); both encodings are injective with left inverses,
so we keep the underlying value, tagged. -/
inductive PlainVal where
  | str (s : String)
  | bytes (b : List Nat)
deriving DecidableEq

/-- Fernet token: records the key it was produced under, the plaintext and
how often its ciphertext bytes were tampered with (0 = intact).  Fernet
authenticates, so decryption succeeds only on an intact token under the
producing key. -/
structure Token where
  mangle : Nat
  key : FKey
  plain : PlainVal
deriving DecidableEq

/-- Flipping a byte inside a token's ciphertext: the result is no longer an
authentic token. -/
def tamperToken (t : Token) : Token :=
  { t with mangle := t.mangle + 1 }

/-- State of `EncryptionManager` (src/core/encryption_manager.py): the
master password bytes and the KDF salt; `self.key`/`self.cipher` are
derived from these two fields. -/
structure EncryptionManager where
  master_password : String
  salt : List Nat
deriving DecidableEq

/-- Key derivation `EncryptionManager._derive_key` (PBKDF2-HMAC-SHA256,
length 32, 100000 iterations, urlsafe-base64-wrapped). -/
def EncryptionManager.derivedKey (em : EncryptionManager) : FKey :=
  ⟨em.master_password, em.salt⟩

/-- Accessor `EncryptionManager.get_salt`. -/
def EncryptionManager.get_salt (em : EncryptionManager) : List Nat :=
  em.salt

/-- Method `EncryptionManager.encrypt`: `self.cipher.encrypt(data.encode()).decode()`. -/
def EncryptionManager.encrypt (em : EncryptionManager) (p : PlainVal) : Token :=
  ⟨0, em.derivedKey, p⟩

/-- Method `EncryptionManager.decrypt`: Fernet raises `InvalidToken` when the
token is tampered with or was produced under a different key; otherwise it
returns the plaintext. -/
def EncryptionManager.decrypt (em : EncryptionManager) (t : Token) : Except String PlainVal :=
  if t.mangle = 0 ∧ t.key = em.derivedKey then .ok t.plain else .error "InvalidToken"

/-- Expect a string plaintext (the `.decode()` after Fernet decrypt). -/
def PlainVal.expectStr : PlainVal → Except String String
  | .str s => .ok s
  | .bytes _ => .error "UnicodeDecodeError"

/-- Expect raw bytes (the `base64.b64decode` applied by `FileEntry.from_dict`). -/
def PlainVal.expectBytes : PlainVal → Except String (List Nat)
  | .bytes b => .ok b
  | .str _ => .error "binascii.Error"

/-- Record model `FileEntry` (src/models/file_entry.py): title, raw file
bytes, filename, type, size, category, notes, favorite flag and the two
timestamps set by `__init__`. -/
structure FileEntry where
  title : String
  file_data : List Nat
  file_name : String
  file_type : String
  file_size : Nat
  category : String
  notes : String
  is_favorite : Bool
  created : String
  modified : String
deriving DecidableEq

/-- Constructor `FileEntry.__init__`: `created = datetime.now().isoformat()`,
`modified = created`; `now` is the construction time. -/
def FileEntry.init (title : String) (file_data : List Nat) (file_name : String)
    (file_type : String) (file_size : Nat) (category : String) (notes : String)
    (is_favorite : Bool) (now : String) : FileEntry :=
  ⟨title, file_data, file_name, file_type, file_size, category, notes, is_favorite, now, now⟩

/-- Serialized (plaintext) dictionary form of a `FileEntry`, as produced by
`FileEntry.to_dict`; the source stores `file_data` as a base64 string, and
base64 is a bijection onto its range, so the bytes are carried directly. -/
structure FileDict where
  title : String
  file_data : List Nat
  file_name : String
  file_type : String
  file_size : Nat
  category : String
  notes : String
  is_favorite : Bool
  created : String
  modified : String
deriving DecidableEq

/-- Method `FileEntry.to_dict`. -/
def FileEntry.to_dict (f : FileEntry) : FileDict :=
  ⟨f.title, f.file_data, f.file_name, f.file_type, f.file_size, f.category, f.notes,
   f.is_favorite, f.created, f.modified⟩

/-- Classmethod `FileEntry.from_dict` (base64-decodes `file_data`,
reconstructs the entry and restores the stored timestamps). -/
def FileEntry.from_dict (d : FileDict) : FileEntry :=
  ⟨d.title, d.file_data, d.file_name, d.file_type, d.file_size, d.category, d.notes,
   d.is_favorite, d.created, d.modified⟩

/-- Record model `PasswordEntry` (src/models/password_entry.py). -/
structure PasswordEntry where
  title : String
  username : String
  password : String
  url : String
  notes : String
  category : String
  is_favorite : Bool
  attached_files : List FileEntry
  created : String
  modified : String
deriving DecidableEq

/-- Constructor `PasswordEntry.__init__`. -/
def PasswordEntry.init (title username password : String) (url notes : String)
    (category : String) (is_favorite : Bool) (attached_files : List FileEntry)
    (now : String) : PasswordEntry :=
  ⟨title, username, password, url, notes, category, is_favorite, attached_files, now, now⟩

/-- Record model `SecureNote` (src/models/secure_note.py). -/
structure SecureNote where
  title : String
  content : String
  category : String
  is_favorite : Bool
  attached_files : List FileEntry
  created : String
  modified : String
deriving DecidableEq

/-- Constructor `SecureNote.__init__`. -/
def SecureNote.init (title content : String) (category : String) (is_favorite : Bool)
    (attached_files : List FileEntry) (now : String) : SecureNote :=
  ⟨title, content, category, is_favorite, attached_files, now, now⟩

/-- Record model `CardEntry` (src/models/card_entry.py). -/
structure CardEntry where
  title : String
  card_type : String
  card_number : String
  cardholder_name : String
  expiry_month : String
  expiry_year : String
  cvv : String
  notes : String
  category : String
  is_favorite : Bool
  attached_files : List FileEntry
  created : String
  modified : String
deriving DecidableEq

/-- Constructor `CardEntry.__init__`. -/
def CardEntry.init (title card_type card_number cardholder_name expiry_month expiry_year : String)
    (cvv notes : String) (category : String) (is_favorite : Bool)
    (attached_files : List FileEntry) (now : String) : CardEntry :=
  ⟨title, card_type, card_number, cardholder_name, expiry_month, expiry_year, cvv, notes,
   category, is_favorite, attached_files, now, now⟩

/-- Record model `IdentityEntry` (src/models/identity_entry.py). -/
structure IdentityEntry where
  title : String
  first_name : String
  last_name : String
  email : String
  phone : String
  address : String
  city : String
  state : String
  zip_code : String
  country : String
  date_of_birth : String
  social_security_number : String
  driver_license : String
  passport_number : String
  notes : String
  category : String
  is_favorite : Bool
  attached_files : List FileEntry
  created : String
  modified : String
deriving DecidableEq

/-- Constructor `IdentityEntry.__init__`. -/
def IdentityEntry.init (title first_name last_name : String)
    (email phone address city state zip_code country date_of_birth : String)
    (social_security_number driver_license passport_number notes : String)
    (category : String) (is_favorite : Bool) (attached_files : List FileEntry)
    (now : String) : IdentityEntry :=
  ⟨title, first_name, last_name, email, phone, address, city, state, zip_code, country,
   date_of_birth, social_security_number, driver_license, passport_number, notes,
   category, is_favorite, attached_files, now, now⟩

/-- Entry of the `passwords` array in the exported JSON: the `to_dict`
fields with `password` and `notes` replaced by their Fernet tokens
(`PasswordManager.export_data`, lines 203-207). -/
structure EncPasswordDict where
  title : String
  username : String
  password : Token
  url : String
  notes : Token
  category : String
  is_favorite : Bool
  attached_files : List FileDict
  created : String
  modified : String
deriving DecidableEq

/-- Entry of the `notes` array in the exported JSON (`content` encrypted). -/
structure EncNoteDict where
  title : String
  content : Token
  category : String
  is_favorite : Bool
  attached_files : List FileDict
  created : String
  modified : String
deriving DecidableEq

/-- Entry of the `cards` array in the exported JSON (`card_number`, `cvv`
and `notes` encrypted). -/
structure EncCardDict where
  title : String
  card_type : String
  card_number : Token
  cardholder_name : String
  expiry_month : String
  expiry_year : String
  cvv : Token
  notes : Token
  category : String
  is_favorite : Bool
  attached_files : List FileDict
  created : String
  modified : String
deriving DecidableEq

/-- Entry of the `identities` array in the exported JSON
(`social_security_number`, `driver_license`, `passport_number` and `notes`
encrypted). -/
structure EncIdentityDict where
  title : String
  first_name : String
  last_name : String
  email : String
  phone : String
  address : String
  city : String
  state : String
  zip_code : String
  country : String
  date_of_birth : String
  social_security_number : Token
  driver_license : Token
  passport_number : Token
  notes : Token
  category : String
  is_favorite : Bool
  attached_files : List FileDict
  created : String
  modified : String
deriving DecidableEq

/-- Entry of the `files` array in the exported JSON (`file_data` — the
base64 form of the raw bytes — and `notes` encrypted). -/
structure EncFileDict where
  title : String
  file_data : Token
  file_name : String
  file_type : String
  file_size : Nat
  category : String
  notes : Token
  is_favorite : Bool
  created : String
  modified : String
deriving DecidableEq

/-- Per-entry encryption step of `PasswordManager.export_data` for a
password entry: `entry.to_dict()` followed by replacing `password` and
`notes` with `self.encryption_manager.encrypt(...)` (lines 175, 203-207). -/
def encryptPasswordEntry (em : EncryptionManager) (e : PasswordEntry) : EncPasswordDict :=
  ⟨e.title, e.username, em.encrypt (.str e.password), e.url, em.encrypt (.str e.notes),
   e.category, e.is_favorite, e.attached_files.map FileEntry.to_dict, e.created, e.modified⟩

/-- Per-entry encryption step of `export_data` for a secure note
(lines 176, 209-212). -/
def encryptSecureNote (em : EncryptionManager) (n : SecureNote) : EncNoteDict :=
  ⟨n.title, em.encrypt (.str n.content), n.category, n.is_favorite,
   n.attached_files.map FileEntry.to_dict, n.created, n.modified⟩

/-- Per-entry encryption step of `export_data` for a card
(lines 177, 214-219). -/
def encryptCardEntry (em : EncryptionManager) (c : CardEntry) : EncCardDict :=
  ⟨c.title, c.card_type, em.encrypt (.str c.card_number), c.cardholder_name,
   c.expiry_month, c.expiry_year, em.encrypt (.str c.cvv), em.encrypt (.str c.notes),
   c.category, c.is_favorite, c.attached_files.map FileEntry.to_dict, c.created, c.modified⟩

/-- Per-entry encryption step of `export_data` for an identity
(lines 178, 221-227). -/
def encryptIdentityEntry (em : EncryptionManager) (i : IdentityEntry) : EncIdentityDict :=
  ⟨i.title, i.first_name, i.last_name, i.email, i.phone, i.address, i.city, i.state,
   i.zip_code, i.country, i.date_of_birth, em.encrypt (.str i.social_security_number),
   em.encrypt (.str i.driver_license), em.encrypt (.str i.passport_number),
   em.encrypt (.str i.notes), i.category, i.is_favorite,
   i.attached_files.map FileEntry.to_dict, i.created, i.modified⟩

/-- Per-entry encryption step of `export_data` for a file entry: the source
encrypts the base64 form of the raw bytes (lines 179, 229-233). -/
def encryptFileEntry (em : EncryptionManager) (f : FileEntry) : EncFileDict :=
  ⟨f.title, em.encrypt (.bytes f.file_data), f.file_name, f.file_type, f.file_size,
   f.category, em.encrypt (.str f.notes), f.is_favorite, f.created, f.modified⟩

/-- Body of one iteration of the password import loop
(`PasswordManager.import_data`, lines 350-360): decrypt `password`, then
`notes`, then rebuild the entry with `PasswordEntry.from_dict`; any
failure is reported for the whole record. -/
def decryptPasswordEntry (em : EncryptionManager) (d : EncPasswordDict) :
    Except String PasswordEntry := do
  let pv ← em.decrypt d.password
  let p ← pv.expectStr
  let nv ← em.decrypt d.notes
  let n ← nv.expectStr
  .ok ⟨d.title, d.username, p, d.url, n, d.category, d.is_favorite,
       d.attached_files.map FileEntry.from_dict, d.created, d.modified⟩

/-- Body of one iteration of the note import loop (lines 364-373). -/
def decryptSecureNote (em : EncryptionManager) (d : EncNoteDict) :
    Except String SecureNote := do
  let cv ← em.decrypt d.content
  let c ← cv.expectStr
  .ok ⟨d.title, c, d.category, d.is_favorite,
       d.attached_files.map FileEntry.from_dict, d.created, d.modified⟩

/-- Body of one iteration of the card import loop (lines 377-388). -/
def decryptCardEntry (em : EncryptionManager) (d : EncCardDict) :
    Except String CardEntry := do
  let nv ← em.decrypt d.card_number
  let num ← nv.expectStr
  let cv ← em.decrypt d.cvv
  let cvv ← cv.expectStr
  let tv ← em.decrypt d.notes
  let nts ← tv.expectStr
  .ok ⟨d.title, d.card_type, num, d.cardholder_name, d.expiry_month, d.expiry_year,
       cvv, nts, d.category, d.is_favorite,
       d.attached_files.map FileEntry.from_dict, d.created, d.modified⟩

/-- Body of one iteration of the identity import loop (lines 392-404). -/
def decryptIdentityEntry (em : EncryptionManager) (d : EncIdentityDict) :
    Except String IdentityEntry := do
  let sv ← em.decrypt d.social_security_number
  let ssn ← sv.expectStr
  let dv ← em.decrypt d.driver_license
  let dl ← dv.expectStr
  let pv ← em.decrypt d.passport_number
  let pp ← pv.expectStr
  let tv ← em.decrypt d.notes
  let nts ← tv.expectStr
  .ok ⟨d.title, d.first_name, d.last_name, d.email, d.phone, d.address, d.city, d.state,
       d.zip_code, d.country, d.date_of_birth, ssn, dl, pp, nts, d.category,
       d.is_favorite, d.attached_files.map FileEntry.from_dict, d.created, d.modified⟩

/-- Body of one iteration of the file import loop (lines 408-420): decrypt
`file_data` (yielding the base64 form of the bytes), then `notes`, then
rebuild with `FileEntry.from_dict` (which base64-decodes). -/
def decryptFileEntry (em : EncryptionManager) (d : EncFileDict) :
    Except String FileEntry := do
  let fv ← em.decrypt d.file_data
  let fb ← fv.expectBytes
  let nv ← em.decrypt d.notes
  let nts ← nv.expectStr
  .ok ⟨d.title, fb, d.file_name, d.file_type, d.file_size, d.category, nts,
       d.is_favorite, d.created, d.modified⟩

/-- Parsed JSON document of a `.lp` backup (`encrypted_data` in
`export_data` / `data` in `import_data`): five encrypted record arrays,
the fixed metadata strings, the envelope creation timestamp and the
base64-decoded KDF salt (`Option`: `import_data` tests
`if encryption_salt in data`). -/
structure EncEnvelope where
  passwords : List EncPasswordDict
  notes : List EncNoteDict
  cards : List EncCardDict
  identities : List EncIdentityDict
  files : List EncFileDict
  version : String
  app_name : String
  company : String
  created : String
  encryption_salt : Option (List Nat)
deriving DecidableEq

/-- State of `PasswordManager` (src/core/password_manager.py, `__init__`):
the master password, the five record collections, the category set and the
session `EncryptionManager`. -/
structure PasswordManager where
  master_password : String
  passwords : List PasswordEntry
  notes : List SecureNote
  cards : List CardEntry
  identities : List IdentityEntry
  files : List FileEntry
  categories : Finset String
  encryption_manager : EncryptionManager
deriving DecidableEq

/-- Constructor `PasswordManager.__init__`: empty collections; the
`EncryptionManager` is built from the vault salt held by `UserManager`
when present, and from a fresh random salt (`os.urandom(16)`, the
`fresh_salt` parameter) otherwise. -/
def PasswordManager.init (master_password : String) (vault_salt : Option (List Nat))
    (fresh_salt : List Nat) : PasswordManager :=
  { master_password := master_password
    passwords := []
    notes := []
    cards := []
    identities := []
    files := []
    categories := ∅
    encryption_manager :=
      match vault_salt with
      | some s => ⟨master_password, s⟩
      | none => ⟨master_password, fresh_salt⟩ }

/-- Method `PasswordManager.export_data` up to JSON serialization: builds
the envelope dictionary with the fixed metadata, a fresh `created`
timestamp (`now`), the base64 of the session salt, and every sensitive
field of every record encrypted with the session `EncryptionManager`
(lines 172-236). -/
def PasswordManager.export_envelope (pm : PasswordManager) (now : String) : EncEnvelope :=
  { passwords := pm.passwords.map (encryptPasswordEntry pm.encryption_manager)
    notes := pm.notes.map (encryptSecureNote pm.encryption_manager)
    cards := pm.cards.map (encryptCardEntry pm.encryption_manager)
    identities := pm.identities.map (encryptIdentityEntry pm.encryption_manager)
    files := pm.files.map (encryptFileEntry pm.encryption_manager)
    version := "1.0"
    app_name := "LuckeePass"
    company := "LuckeeSoft"
    created := now
    encryption_salt := some pm.encryption_manager.get_salt }

/-- ASCII bytes of the magic header `LUCKEEPASS_BACKUP_V1.0`
(`lp_header = b"LUCKEEPASS_BACKUP_V1.0"`, 22 bytes). -/
def lp_header : List Nat :=
  [76, 85, 67, 75, 69, 69, 80, 65, 83, 83, 95, 66, 65, 67, 75, 85, 80, 95, 86, 49, 46, 48]

/-- Separator bytes `b"\x00\xFF\x00\xFF"`. -/
def lp_separator : List Nat :=
  [0, 255, 0, 255]

/-- Lowest index at which `pat` occurs in `data`, as `bytes.find` computes
it (`none` for Python's `-1`). -/
def findSeq (pat : List Nat) : List Nat → Option Nat
  | [] => if pat.isPrefixOf ([] : List Nat) then some 0 else none
  | d :: ds =>
    if pat.isPrefixOf (d :: ds) then some 0
    else (findSeq pat ds).map (· + 1)

/-- Serializer primitive: one natural number. -/
def encNat (n : Nat) : List Nat :=
  [n]

/-- Serializer primitive: a string, length-prefixed. -/
def encStr (s : String) : List Nat :=
  s.data.length :: s.data.map Char.toNat

/-- Serializer primitive: a boolean. -/
def encBool (b : Bool) : List Nat :=
  [if b then 1 else 0]

/-- Serializer primitive: raw bytes, length-prefixed. -/
def encBytes (b : List Nat) : List Nat :=
  b.length :: b

/-- Serializer primitive: a list, count-prefixed. -/
def encList (f : α → List Nat) (xs : List α) : List Nat :=
  xs.length :: xs.flatMap f

/-- Serializer primitive: optional bytes. -/
def encOptBytes : Option (List Nat) → List Nat
  | none => [0]
  | some b => 1 :: encBytes b

/-- Serializer for a `PlainVal`. -/
def encPlainVal : PlainVal → List Nat
  | .str s => 0 :: encStr s
  | .bytes b => 1 :: encBytes b

/-- Serializer for an `FKey`. -/
def encFKey (k : FKey) : List Nat :=
  encStr k.password ++ encBytes k.salt

/-- Serializer for a `Token`. -/
def encToken (t : Token) : List Nat :=
  encNat t.mangle ++ encFKey t.key ++ encPlainVal t.plain

/-- Parser primitive: one natural number. -/
def decNat : List Nat → Option (Nat × List Nat)
  | [] => none
  | n :: r => some (n, r)

/-- Parser primitive: exactly `k` leading elements. -/
def decTake (k : Nat) (l : List Nat) : Option (List Nat × List Nat) :=
  if k ≤ l.length then some (l.take k, l.drop k) else none

/-- Parser primitive: a length-prefixed string. -/
def decStr (l : List Nat) : Option (String × List Nat) := do
  let (n, r) ← decNat l
  let (cs, r2) ← decTake n r
  some (⟨cs.map Char.ofNat⟩, r2)

/-- Parser primitive: a boolean. -/
def decBool (l : List Nat) : Option (Bool × List Nat) := do
  let (n, r) ← decNat l
  some (n ≠ 0, r)

/-- Parser primitive: length-prefixed bytes. -/
def decBytes (l : List Nat) : Option (List Nat × List Nat) := do
  let (n, r) ← decNat l
  decTake n r

/-- Parser primitive: a count-prefixed list, element by element. -/
def decListAux (f : List Nat → Option (α × List Nat)) :
    Nat → List Nat → Option (List α × List Nat)
  | 0, l => some ([], l)
  | n + 1, l => do
    let (x, r) ← f l
    let (xs, r2) ← decListAux f n r
    some (x :: xs, r2)

/-- Parser primitive: a count-prefixed list. -/
def decList (f : List Nat → Option (α × List Nat)) (l : List Nat) :
    Option (List α × List Nat) := do
  let (n, r) ← decNat l
  decListAux f n r

/-- Parser primitive: optional bytes. -/
def decOptBytes (l : List Nat) : Option (Option (List Nat) × List Nat) := do
  let (tag, r) ← decNat l
  if tag = 0 then some (none, r)
  else do
    let (b, r2) ← decBytes r
    some (some b, r2)

/-- Parser for a `PlainVal`. -/
def decPlainVal (l : List Nat) : Option (PlainVal × List Nat) := do
  let (tag, r) ← decNat l
  if tag = 0 then do
    let (s, r2) ← decStr r
    some (.str s, r2)
  else do
    let (b, r2) ← decBytes r
    some (.bytes b, r2)

/-- Parser for an `FKey`. -/
def decFKey (l : List Nat) : Option (FKey × List Nat) := do
  let (p, r) ← decStr l
  let (s, r2) ← decBytes r
  some (⟨p, s⟩, r2)

/-- Parser for a `Token`. -/
def decToken (l : List Nat) : Option (Token × List Nat) := do
  let (m, r) ← decNat l
  let (k, r2) ← decFKey r
  let (p, r3) ← decPlainVal r2
  some (⟨m, k, p⟩, r3)

/-- Serializer for a plaintext attachment dictionary. -/
def encFileDict (d : FileDict) : List Nat :=
  encStr d.title ++ encBytes d.file_data ++ encStr d.file_name ++ encStr d.file_type ++
  encNat d.file_size ++ encStr d.category ++ encStr d.notes ++ encBool d.is_favorite ++
  encStr d.created ++ encStr d.modified

/-- Parser for a plaintext attachment dictionary. -/
def decFileDict (l : List Nat) : Option (FileDict × List Nat) := do
  let (title, r1) ← decStr l
  let (fdata, r2) ← decBytes r1
  let (fname, r3) ← decStr r2
  let (ftype, r4) ← decStr r3
  let (fsize, r5) ← decNat r4
  let (cat, r6) ← decStr r5
  let (nts, r7) ← decStr r6
  let (fav, r8) ← decBool r7
  let (cre, r9) ← decStr r8
  let (mo, r10) ← decStr r9
  some (⟨title, fdata, fname, ftype, fsize, cat, nts, fav, cre, mo⟩, r10)

/-- Serializer for an encrypted password dictionary. -/
def encPasswordDict (d : EncPasswordDict) : List Nat :=
  encStr d.title ++ encStr d.username ++ encToken d.password ++ encStr d.url ++
  encToken d.notes ++ encStr d.category ++ encBool d.is_favorite ++
  encList encFileDict d.attached_files ++ encStr d.created ++ encStr d.modified

/-- Parser for an encrypted password dictionary. -/
def decPasswordDict (l : List Nat) : Option (EncPasswordDict × List Nat) := do
  let (title, r1) ← decStr l
  let (user, r2) ← decStr r1
  let (pw, r3) ← decToken r2
  let (url, r4) ← decStr r3
  let (nts, r5) ← decToken r4
  let (cat, r6) ← decStr r5
  let (fav, r7) ← decBool r6
  let (att, r8) ← decList decFileDict r7
  let (cre, r9) ← decStr r8
  let (mo, r10) ← decStr r9
  some (⟨title, user, pw, url, nts, cat, fav, att, cre, mo⟩, r10)

/-- Serializer for an encrypted note dictionary. -/
def encNoteDict (d : EncNoteDict) : List Nat :=
  encStr d.title ++ encToken d.content ++ encStr d.category ++ encBool d.is_favorite ++
  encList encFileDict d.attached_files ++ encStr d.created ++ encStr d.modified

/-- Parser for an encrypted note dictionary. -/
def decNoteDict (l : List Nat) : Option (EncNoteDict × List Nat) := do
  let (title, r1) ← decStr l
  let (con, r2) ← decToken r1
  let (cat, r3) ← decStr r2
  let (fav, r4) ← decBool r3
  let (att, r5) ← decList decFileDict r4
  let (cre, r6) ← decStr r5
  let (mo, r7) ← decStr r6
  some (⟨title, con, cat, fav, att, cre, mo⟩, r7)

/-- Serializer for an encrypted card dictionary. -/
def encCardDict (d : EncCardDict) : List Nat :=
  encStr d.title ++ encStr d.card_type ++ encToken d.card_number ++
  encStr d.cardholder_name ++ encStr d.expiry_month ++ encStr d.expiry_year ++
  encToken d.cvv ++ encToken d.notes ++ encStr d.category ++ encBool d.is_favorite ++
  encList encFileDict d.attached_files ++ encStr d.created ++ encStr d.modified

/-- Parser for the first seven fields of an encrypted card dictionary
(split to keep the code generator fast on long parse chains). -/
def decCardDictA (l : List Nat) :
    Option ((String × String × Token × String × String × String × Token) × List Nat) := do
  let (title, r1) ← decStr l
  let (ctype, r2) ← decStr r1
  let (num, r3) ← decToken r2
  let (holder, r4) ← decStr r3
  let (em, r5) ← decStr r4
  let (ey, r6) ← decStr r5
  let (cvv, r7) ← decToken r6
  some ((title, ctype, num, holder, em, ey, cvv), r7)

/-- Parser for the last six fields of an encrypted card dictionary. -/
def decCardDictB (l : List Nat) :
    Option ((Token × String × Bool × List FileDict × String × String) × List Nat) := do
  let (nts, r1) ← decToken l
  let (cat, r2) ← decStr r1
  let (fav, r3) ← decBool r2
  let (att, r4) ← decList decFileDict r3
  let (cre, r5) ← decStr r4
  let (mo, r6) ← decStr r5
  some ((nts, cat, fav, att, cre, mo), r6)

/-- Parser for an encrypted card dictionary. -/
def decCardDict (l : List Nat) : Option (EncCardDict × List Nat) := do
  let (a, r1) ← decCardDictA l
  let (b, r2) ← decCardDictB r1
  let (title, ctype, num, holder, em, ey, cvv) := a
  let (nts, cat, fav, att, cre, mo) := b
  some (⟨title, ctype, num, holder, em, ey, cvv, nts, cat, fav, att, cre, mo⟩, r2)

/-- Serializer for an encrypted identity dictionary. -/
def encIdentityDict (d : EncIdentityDict) : List Nat :=
  encStr d.title ++ encStr d.first_name ++ encStr d.last_name ++ encStr d.email ++
  encStr d.phone ++ encStr d.address ++ encStr d.city ++ encStr d.state ++
  encStr d.zip_code ++ encStr d.country ++ encStr d.date_of_birth ++
  encToken d.social_security_number ++ encToken d.driver_license ++
  encToken d.passport_number ++ encToken d.notes ++ encStr d.category ++
  encBool d.is_favorite ++ encList encFileDict d.attached_files ++
  encStr d.created ++ encStr d.modified

/-- Parser for the first seven fields of an encrypted identity dictionary
(split to keep the code generator fast on long parse chains). -/
def decIdentityDictA (l : List Nat) :
    Option ((String × String × String × String × String × String × String) × List Nat) := do
  let (title, r1) ← decStr l
  let (fn, r2) ← decStr r1
  let (ln, r3) ← decStr r2
  let (email, r4) ← decStr r3
  let (phone, r5) ← decStr r4
  let (addr, r6) ← decStr r5
  let (city, r7) ← decStr r6
  some ((title, fn, ln, email, phone, addr, city), r7)

/-- Parser for the middle seven fields of an encrypted identity dictionary. -/
def decIdentityDictB (l : List Nat) :
    Option ((String × String × String × String × Token × Token × Token) × List Nat) := do
  let (st, r1) ← decStr l
  let (zip, r2) ← decStr r1
  let (country, r3) ← decStr r2
  let (dob, r4) ← decStr r3
  let (ssn, r5) ← decToken r4
  let (dl, r6) ← decToken r5
  let (pp, r7) ← decToken r6
  some ((st, zip, country, dob, ssn, dl, pp), r7)

/-- Parser for the last six fields of an encrypted identity dictionary. -/
def decIdentityDictC (l : List Nat) :
    Option ((Token × String × Bool × List FileDict × String × String) × List Nat) := do
  let (nts, r1) ← decToken l
  let (cat, r2) ← decStr r1
  let (fav, r3) ← decBool r2
  let (att, r4) ← decList decFileDict r3
  let (cre, r5) ← decStr r4
  let (mo, r6) ← decStr r5
  some ((nts, cat, fav, att, cre, mo), r6)

/-- Parser for an encrypted identity dictionary. -/
def decIdentityDict (l : List Nat) : Option (EncIdentityDict × List Nat) := do
  let (a, r1) ← decIdentityDictA l
  let (b, r2) ← decIdentityDictB r1
  let (c, r3) ← decIdentityDictC r2
  let (title, fn, ln, email, phone, addr, city) := a
  let (st, zip, country, dob, ssn, dl, pp) := b
  let (nts, cat, fav, att, cre, mo) := c
  some (⟨title, fn, ln, email, phone, addr, city, st, zip, country, dob, ssn, dl, pp,
         nts, cat, fav, att, cre, mo⟩, r3)

/-- Serializer for an encrypted file dictionary. -/
def encEncFileDict (d : EncFileDict) : List Nat :=
  encStr d.title ++ encToken d.file_data ++ encStr d.file_name ++ encStr d.file_type ++
  encNat d.file_size ++ encStr d.category ++ encToken d.notes ++ encBool d.is_favorite ++
  encStr d.created ++ encStr d.modified

/-- Parser for an encrypted file dictionary. -/
def decEncFileDict (l : List Nat) : Option (EncFileDict × List Nat) := do
  let (title, r1) ← decStr l
  let (fdata, r2) ← decToken r1
  let (fname, r3) ← decStr r2
  let (ftype, r4) ← decStr r3
  let (fsize, r5) ← decNat r4
  let (cat, r6) ← decStr r5
  let (nts, r7) ← decToken r6
  let (fav, r8) ← decBool r7
  let (cre, r9) ← decStr r8
  let (mo, r10) ← decStr r9
  some (⟨title, fdata, fname, ftype, fsize, cat, nts, fav, cre, mo⟩, r10)

/-- Serializer standing for `json.dumps(encrypted_data).encode("utf-8")`:
a concrete injective byte encoding of the envelope document. -/
def encodeEnvelope (e : EncEnvelope) : List Nat :=
  encList encPasswordDict e.passwords ++ encList encNoteDict e.notes ++
  encList encCardDict e.cards ++ encList encIdentityDict e.identities ++
  encList encEncFileDict e.files ++ encStr e.version ++ encStr e.app_name ++
  encStr e.company ++ encStr e.created ++ encOptBytes e.encryption_salt

/-- Parser standing for `bytes.decode("utf-8")` followed by `json.loads`:
left inverse of `encodeEnvelope`, rejecting anything else (including
trailing garbage, which `json.loads` also rejects). -/
def decodeEnvelope (l : List Nat) : Option EncEnvelope := do
  let (ps, r1) ← decList decPasswordDict l
  let (ns, r2) ← decList decNoteDict r1
  let (cs, r3) ← decList decCardDict r2
  let (ids, r4) ← decList decIdentityDict r3
  let (fs, r5) ← decList decEncFileDict r4
  let (ver, r6) ← decStr r5
  let (app, r7) ← decStr r6
  let (comp, r8) ← decStr r7
  let (cre, r9) ← decStr r8
  let (salt, r10) ← decOptBytes r9
  if r10 = [] then
    some ⟨ps, ns, cs, ids, fs, ver, app, comp, cre, salt⟩
  else none

/-- Bytes of a full `.lp` export: `lp_header + lp_separator + json_data`
(`export_data`, lines 238-245). -/
def PasswordManager.export_data (pm : PasswordManager) (now : String) : List Nat :=
  lp_header ++ lp_separator ++ encodeEnvelope (pm.export_envelope now)

/-- Shape shared by the five per-record decrypt loops of `import_data`
(lines 348-420): one pass over the array; a record whose `dec` succeeds is
appended and its category collected, a record whose `dec` raises is
skipped with one printed warning. -/
def importLoop (dec : δ → Except String ρ) (category : ρ → String) (title : δ → String)
    (warnText : String) (cats : Finset String) : List δ → List ρ × Finset String × List String
  | [] => ([], cats, [])
  | d :: rest =>
    match dec d with
    | .ok e =>
      let (es, cs, ws) := importLoop dec category title warnText (insert (category e) cats) rest
      (e :: es, cs, ws)
    | .error msg =>
      let (es, cs, ws) := importLoop dec category title warnText cats rest
      (es, cs, (warnText ++ title d ++ ": " ++ msg) :: ws)

/-- Password import loop of `import_data` (lines 348-360). -/
def importPasswords (em : EncryptionManager) (cats : Finset String)
    (ds : List EncPasswordDict) : List PasswordEntry × Finset String × List String :=
  importLoop (decryptPasswordEntry em) (fun e => e.category) (fun d => d.title)
    "Warning: Could not decrypt password entry " cats ds

/-- Note import loop of `import_data` (lines 362-373). -/
def importNotes (em : EncryptionManager) (cats : Finset String)
    (ds : List EncNoteDict) : List SecureNote × Finset String × List String :=
  importLoop (decryptSecureNote em) (fun e => e.category) (fun d => d.title)
    "Warning: Could not decrypt note " cats ds

/-- Card import loop of `import_data` (lines 375-388). -/
def importCards (em : EncryptionManager) (cats : Finset String)
    (ds : List EncCardDict) : List CardEntry × Finset String × List String :=
  importLoop (decryptCardEntry em) (fun e => e.category) (fun d => d.title)
    "Warning: Could not decrypt card entry " cats ds

/-- Identity import loop of `import_data` (lines 390-404). -/
def importIdentities (em : EncryptionManager) (cats : Finset String)
    (ds : List EncIdentityDict) : List IdentityEntry × Finset String × List String :=
  importLoop (decryptIdentityEntry em) (fun e => e.category) (fun d => d.title)
    "Warning: Could not decrypt identity entry " cats ds

/-- File import loop of `import_data` (lines 406-420). -/
def importFiles (em : EncryptionManager) (cats : Finset String)
    (ds : List EncFileDict) : List FileEntry × Finset String × List String :=
  importLoop (decryptFileEntry em) (fun e => e.category) (fun d => d.title)
    "Warning: Could not decrypt file " cats ds

/-- Post-parse phase of `PasswordManager.import_data` (lines 340-420): when
the document carries `encryption_salt`, replace the session
`EncryptionManager` by one derived from `self.master_password` and that
embedded salt before any field decryption; then run the five per-record
decrypt loops, which replace the collections and accumulate categories.
Returns the new state together with the per-record warnings the source
prints. -/
def PasswordManager.import_envelope (pm : PasswordManager) (data : EncEnvelope) :
    PasswordManager × List String :=
  let em :=
    match data.encryption_salt with
    | some salt => EncryptionManager.mk pm.master_password salt
    | none => pm.encryption_manager
  let (ps, c1, w1) := importPasswords em pm.categories data.passwords
  let (ns, c2, w2) := importNotes em c1 data.notes
  let (cs, c3, w3) := importCards em c2 data.cards
  let (ids, c4, w4) := importIdentities em c3 data.identities
  let (fs, c5, w5) := importFiles em c4 data.files
  ({ pm with
      passwords := ps
      notes := ns
      cards := cs
      identities := ids
      files := fs
      categories := c5
      encryption_manager := em },
   w1 ++ w2 ++ w3 ++ w4 ++ w5)

/-- Method `PasswordManager.import_data` (lines 308-420): validate the
magic header, locate the separator, check the remainder is nonempty,
parse it (UTF-8 decode + `json.loads`), verify `app_name`, then decrypt
record by record.  Failures up to and including the `app_name` check raise
`ValueError` before any field decryption is attempted. -/
def PasswordManager.import_data (pm : PasswordManager) (lp_data : List Nat) :
    Except String (PasswordManager × List String) :=
  if ¬ lp_header.isPrefixOf lp_data then
    .error "Invalid .lp file format. This file was not created by LuckeePass."
  else
    match findSeq lp_separator lp_data with
    | none => .error "Invalid .lp file format. Corrupted file."
    | some separator_pos =>
      let json_start := separator_pos + lp_separator.length
      if lp_data.length ≤ json_start then
        .error "Invalid .lp file format. File too short."
      else
        match decodeEnvelope (lp_data.drop json_start) with
        | none => .error "Invalid .lp file format. Corrupted JSON data."
        | some data =>
          if data.app_name ≠ "LuckeePass" then
            .error "Invalid .lp file format. This file was not created by LuckeePass."
          else
            .ok (pm.import_envelope data)

/-- Static method `PasswordManager.is_valid_lp_file` (lines 296-306): read
the file and test the magic-header prefix; any exception (including a
missing file, `none` here) yields `false`. -/
def is_valid_lp_file (contents : Option (List Nat)) : Bool :=
  match contents with
  | none => false
  | some data => lp_header.isPrefixOf data

/-- Method `PasswordManager.save_data` (lines 48-55): `open(self.data_file,
"wb")` truncates the vault file, then the export bytes are written.  The
write is modelled with an explicit fault: `fail_after = some k` means the
process dies after `k` bytes reached the disk (the source has no temp
file and no rename).  Returns the resulting on-disk content and whether
the save succeeded; the previous content (`old_file`) is discarded by the
truncating open either way. -/
def PasswordManager.save_data (pm : PasswordManager) (now : String)
    (old_file : Option (List Nat)) (fail_after : Option Nat) :
    Option (List Nat) × Bool :=
  let lp_data := pm.export_data now
  match fail_after with
  | some k => if k < lp_data.length then (some (lp_data.take k), false) else (some lp_data, true)
  | none => (some lp_data, true)

/-- Outcome of reading the vault file at the top of `load_data`. -/
inductive FileRead where
  | absent
  | readFailure
  | content (data : List Nat)

/-- Method `PasswordManager.load_data` (lines 57-90): missing file and
empty file leave the state untouched; a successful `import_data` installs
the imported state; any exception from `import_data` (and likewise a read
failure) is caught, printed, and answered by resetting `passwords`,
`notes`, `cards`, `identities` and `categories` — the source does not
reset `files`, and it returns nothing to the caller. -/
def PasswordManager.load_data (pm : PasswordManager) (f : FileRead) : PasswordManager :=
  match f with
  | .absent => pm
  | .readFailure =>
    { pm with passwords := [], notes := [], cards := [], identities := [], categories := ∅ }
  | .content data =>
    if data.length = 0 then pm
    else
      match pm.import_data data with
      | .ok (pm2, _) => pm2
      | .error _ =>
        { pm with passwords := [], notes := [], cards := [], identities := [], categories := ∅ }

/-- Method `PasswordManager.add_password` (lines 92-96). -/
def PasswordManager.add_password (pm : PasswordManager) (entry : PasswordEntry)
    (now : String) : PasswordManager :=
  let entry := { entry with modified := now }
  { pm with passwords := pm.passwords ++ [entry],
            categories := insert entry.category pm.categories }

/-- Method `PasswordManager.update_password` (lines 98-102). -/
def PasswordManager.update_password (pm : PasswordManager) (index : Nat)
    (entry : PasswordEntry) (now : String) : PasswordManager :=
  let entry := { entry with modified := now }
  { pm with passwords := pm.passwords.set index entry,
            categories := insert entry.category pm.categories }

/-- Method `PasswordManager.delete_password` (lines 104-106). -/
def PasswordManager.delete_password (pm : PasswordManager) (index : Nat) : PasswordManager :=
  { pm with passwords := pm.passwords.eraseIdx index }

/-- Method `PasswordManager.add_note` (lines 108-112). -/
def PasswordManager.add_note (pm : PasswordManager) (note : SecureNote)
    (now : String) : PasswordManager :=
  let note := { note with modified := now }
  { pm with notes := pm.notes ++ [note],
            categories := insert note.category pm.categories }

/-- Method `PasswordManager.update_note` (lines 114-118). -/
def PasswordManager.update_note (pm : PasswordManager) (index : Nat)
    (note : SecureNote) (now : String) : PasswordManager :=
  let note := { note with modified := now }
  { pm with notes := pm.notes.set index note,
            categories := insert note.category pm.categories }

/-- Method `PasswordManager.delete_note` (lines 120-122). -/
def PasswordManager.delete_note (pm : PasswordManager) (index : Nat) : PasswordManager :=
  { pm with notes := pm.notes.eraseIdx index }

/-- Method `PasswordManager.add_card` (lines 124-128). -/
def PasswordManager.add_card (pm : PasswordManager) (card : CardEntry)
    (now : String) : PasswordManager :=
  let card := { card with modified := now }
  { pm with cards := pm.cards ++ [card],
            categories := insert card.category pm.categories }

/-- Method `PasswordManager.update_card` (lines 130-134). -/
def PasswordManager.update_card (pm : PasswordManager) (index : Nat)
    (card : CardEntry) (now : String) : PasswordManager :=
  let card := { card with modified := now }
  { pm with cards := pm.cards.set index card,
            categories := insert card.category pm.categories }

/-- Method `PasswordManager.delete_card` (lines 136-138). -/
def PasswordManager.delete_card (pm : PasswordManager) (index : Nat) : PasswordManager :=
  { pm with cards := pm.cards.eraseIdx index }

/-- Method `PasswordManager.add_identity` (lines 140-144). -/
def PasswordManager.add_identity (pm : PasswordManager) (identity : IdentityEntry)
    (now : String) : PasswordManager :=
  let identity := { identity with modified := now }
  { pm with identities := pm.identities ++ [identity],
            categories := insert identity.category pm.categories }

/-- Method `PasswordManager.update_identity` (lines 146-150). -/
def PasswordManager.update_identity (pm : PasswordManager) (index : Nat)
    (identity : IdentityEntry) (now : String) : PasswordManager :=
  let identity := { identity with modified := now }
  { pm with identities := pm.identities.set index identity,
            categories := insert identity.category pm.categories }

/-- Method `PasswordManager.delete_identity` (lines 152-154). -/
def PasswordManager.delete_identity (pm : PasswordManager) (index : Nat) : PasswordManager :=
  { pm with identities := pm.identities.eraseIdx index }

/-- Method `PasswordManager.add_file` (lines 156-160). -/
def PasswordManager.add_file (pm : PasswordManager) (file_entry : FileEntry)
    (now : String) : PasswordManager :=
  let file_entry := { file_entry with modified := now }
  { pm with files := pm.files ++ [file_entry],
            categories := insert file_entry.category pm.categories }

/-- Method `PasswordManager.update_file` (lines 162-166). -/
def PasswordManager.update_file (pm : PasswordManager) (index : Nat)
    (file_entry : FileEntry) (now : String) : PasswordManager :=
  let file_entry := { file_entry with modified := now }
  { pm with files := pm.files.set index file_entry,
            categories := insert file_entry.category pm.categories }

/-- Method `PasswordManager.delete_file` (lines 168-170). -/
def PasswordManager.delete_file (pm : PasswordManager) (index : Nat) : PasswordManager :=
  { pm with files := pm.files.eraseIdx index }

/-- Item of the favorites view, labelled with the collection it came from;
the source writes the label into a `type` attribute on the record itself
before appending it to the result list. -/
inductive FavItem where
  | password (e : PasswordEntry)
  | note (n : SecureNote)
  | card (c : CardEntry)
  | identity (i : IdentityEntry)
  | file (f : FileEntry)
deriving DecidableEq

/-- Display label the `favorites` property assigns (`entry.type = ...`). -/
def FavItem.typeLabel : FavItem → String
  | .password _ => "Password"
  | .note _ => "Secure Note"
  | .card _ => "Card"
  | .identity _ => "Identity"
  | .file _ => "File"

/-- Property `PasswordManager.favorites` (lines 435-459): one pass over
passwords, then notes, then cards, then identities, then files, appending
each record whose `is_favorite` flag is set, labelled with its collection. -/
def PasswordManager.favorites (pm : PasswordManager) : List FavItem :=
  let favs := pm.passwords.foldl
    (fun acc e => if e.is_favorite then acc ++ [FavItem.password e] else acc) []
  let favs := pm.notes.foldl
    (fun acc n => if n.is_favorite then acc ++ [FavItem.note n] else acc) favs
  let favs := pm.cards.foldl
    (fun acc c => if c.is_favorite then acc ++ [FavItem.card c] else acc) favs
  let favs := pm.identities.foldl
    (fun acc i => if i.is_favorite then acc ++ [FavItem.identity i] else acc) favs
  pm.files.foldl
    (fun acc f => if f.is_favorite then acc ++ [FavItem.file f] else acc) favs

/-- Stored master-password hash (`bcrypt.hashpw` output as read back from
`luckeepass_master.dat`): either a well-formed bcrypt hash — which, bcrypt
being deterministic given its embedded salt, is modelled by the hashed
password together with that salt — or malformed bytes, on which
`bcrypt.checkpw` raises `ValueError`. -/
inductive StoredHash where
  | wellFormed (password : String) (gensalt : Nat)
  | malformed (raw : List Nat)
deriving DecidableEq

/-- Library call `bcrypt.checkpw`: re-hash the candidate under the stored
hash's salt and compare; raises on a malformed stored hash. -/
def bcrypt_checkpw (password : String) (h : StoredHash) : Except String Bool :=
  match h with
  | .wellFormed p _ => .ok (password == p)
  | .malformed _ => .error "Invalid salt"

/-- State of `UserManager` (src/core/user_manager.py): the master-password
hash and the vault salt as loaded from their files (`none` when a file is
absent or unreadable). -/
structure UserManager where
  hashed_master_password : Option StoredHash
  vault_salt : Option (List Nat)
deriving DecidableEq

/-- Method `UserManager.verify_master_password` (lines 75-83): `False` when
no hash is stored, otherwise `bcrypt.checkpw`, with a `ValueError` from a
malformed stored hash caught and answered with `False`. -/
def UserManager.verify_master_password (um : UserManager) (master_password : String) : Bool :=
  match um.hashed_master_password with
  | none => false
  | some h =>
    match bcrypt_checkpw master_password h with
    | .ok b => b
    | .error _ => false

/-- Method `UserManager.get_vault_salt`. -/
def UserManager.get_vault_salt (um : UserManager) : Option (List Nat) :=
  um.vault_salt

/-- Character classes of `PasswordGenerator.__init__`
(src/core/password_generator.py): `string.ascii_lowercase`,
`string.ascii_uppercase`, `string.digits` and the symbol list. -/
def pgLowercase : List Char :=
  "abcdefghijklmnopqrstuvwxyz".data

/-- Uppercase class of the generator. -/
def pgUppercase : List Char :=
  "ABCDEFGHIJKLMNOPQRSTUVWXYZ".data

/-- Digit class of the generator. -/
def pgDigits : List Char :=
  "0123456789".data

/-- Symbol class of the generator. -/
def pgSymbols : List Char :=
  "!@#$%^&*()_+-=[]\x7b\x7d|;:,.<>?".data

/-- Characters removed when `exclude_similar` is set (the chained
`str.replace` calls on lines 34-36). -/
def pgSimilar : List Char :=
  ['l', '1', 'I', 'O', '0', 'S', '5']

/-- Method `PasswordGenerator.generate_password` (lines 19-51).  Randomness
is explicit: `draw i` selects the index (mod the pool size) of the `i`-th
`secrets.choice(chars)`, and `drawU`/`drawD`/`drawS` select the patch
characters of the three ensure-at-least-one branches.  The patch branches
reproduce the source exactly: the uppercase branch prepends one character
to `password[1:]`, the digit branch to `password[2:]`, and the symbol
branch to `password[3:]`. -/
def generate_password (length : Nat) (use_uppercase use_digits use_symbols : Bool)
    (exclude_similar : Bool) (draw : Nat → Nat) (drawU drawD drawS : Nat) :
    Except String (List Char) :=
  let chars := pgLowercase
    ++ (if use_uppercase then pgUppercase else [])
    ++ (if use_digits then pgDigits else [])
    ++ (if use_symbols then pgSymbols else [])
  let chars := if exclude_similar then chars.filter (fun c => c ∉ pgSimilar) else chars
  if chars.length < length then
    .error "Character set too small for requested length"
  else
    let password := (List.range length).map (fun i => chars.getD (draw i % chars.length) 'a')
    let password :=
      if use_uppercase ∧ ¬ password.any (fun c => c ∈ pgUppercase) then
        pgUppercase.getD (drawU % pgUppercase.length) 'A' :: password.drop 1
      else password
    let password :=
      if use_digits ∧ ¬ password.any (fun c => c ∈ pgDigits) then
        pgDigits.getD (drawD % pgDigits.length) '0' :: password.drop 2
      else password
    let password :=
      if use_symbols ∧ ¬ password.any (fun c => c ∈ pgSymbols) then
        pgSymbols.getD (drawS % pgSymbols.length) '!' :: password.drop 3
      else password
    .ok password


/-- Every Fernet token stored in an envelope document, in order. -/
def envelopeTokens (e : EncEnvelope) : List Token :=
  e.passwords.flatMap (fun d => [d.password, d.notes]) ++
  e.notes.map (fun d => d.content) ++
  e.cards.flatMap (fun d => [d.card_number, d.cvv, d.notes]) ++
  e.identities.flatMap (fun d => [d.social_security_number, d.driver_license,
    d.passport_number, d.notes]) ++
  e.files.flatMap (fun d => [d.file_data, d.notes])

/-- Flip a byte in one of the two ciphertext tokens of an exported password
entry (`j` selects the field). -/
def tamperPasswordField (j : Nat) (d : EncPasswordDict) : EncPasswordDict :=
  if j % 2 = 0 then { d with password := tamperToken d.password }
  else { d with notes := tamperToken d.notes }

/-- Flip a byte in the ciphertext token of an exported note. -/
def tamperNoteField (d : EncNoteDict) : EncNoteDict :=
  { d with content := tamperToken d.content }

/-- Flip a byte in one of the three ciphertext tokens of an exported card. -/
def tamperCardField (j : Nat) (d : EncCardDict) : EncCardDict :=
  if j % 3 = 0 then { d with card_number := tamperToken d.card_number }
  else if j % 3 = 1 then { d with cvv := tamperToken d.cvv }
  else { d with notes := tamperToken d.notes }

/-- Flip a byte in one of the four ciphertext tokens of an exported identity. -/
def tamperIdentityField (j : Nat) (d : EncIdentityDict) : EncIdentityDict :=
  if j % 4 = 0 then { d with social_security_number := tamperToken d.social_security_number }
  else if j % 4 = 1 then { d with driver_license := tamperToken d.driver_license }
  else if j % 4 = 2 then { d with passport_number := tamperToken d.passport_number }
  else { d with notes := tamperToken d.notes }

/-- Flip a byte in one of the two ciphertext tokens of an exported file entry. -/
def tamperFileField (j : Nat) (d : EncFileDict) : EncFileDict :=
  if j % 2 = 0 then { d with file_data := tamperToken d.file_data }
  else { d with notes := tamperToken d.notes }

/-- Key manager `import_data` uses for field decryption: re-derived from the
embedded salt when the document carries one, the session manager otherwise
(lines 340-346). -/
def importKeyManager (pm : PasswordManager) (env : EncEnvelope) : EncryptionManager :=
  match env.encryption_salt with
  | some salt => ⟨pm.master_password, salt⟩
  | none => pm.encryption_manager

/-- Sample session manager for concrete instantiations. -/
def emSample : EncryptionManager :=
  ⟨"correct-horse", [1, 2, 3, 4]⟩

/-- Sample file record. -/
def fileSample : FileEntry :=
  ⟨"File", [10, 20], "f.txt", "txt", 2, "Files", "fn", true, "t0", "t0"⟩

/-- Sample password record. -/
def passwordSample : PasswordEntry :=
  ⟨"Example", "u", "p@ss", "", "", "General", true, [fileSample], "t0", "t0"⟩

/-- Sample note record. -/
def noteSample : SecureNote :=
  ⟨"Note", "secret", "General", true, [], "t0", "t0"⟩

/-- Sample card record. -/
def cardSample : CardEntry :=
  ⟨"Card", "Visa", "4111", "U N", "01", "30", "123", "", "Cards", true, [], "t0", "t0"⟩

/-- Sample identity record. -/
def identitySample : IdentityEntry :=
  ⟨"Id", "A", "B", "", "", "", "", "", "", "", "", "123-45", "D1", "P1", "", "Identity",
   true, [], "t0", "t0"⟩

/-- Sample manager state with one record in each collection. -/
def pmSample : PasswordManager :=
  ⟨"correct-horse", [passwordSample], [noteSample], [cardSample], [identitySample],
   [fileSample], ∅, emSample⟩

/-- Sample second session with the same master password but a different
session salt. -/
def pmOtherSalt : PasswordManager :=
  ⟨"correct-horse", [], [], [], [], [], ∅, ⟨"correct-horse", [9, 9]⟩⟩

/-- Sample session authenticated with a different master password. -/
def pmWrong : PasswordManager :=
  ⟨"wrong-pass", [], [], [], [], [], ∅, ⟨"wrong-pass", [1, 2, 3, 4]⟩⟩

/-- Sample password entry in category Work. -/
def workEntry : PasswordEntry :=
  ⟨"W", "u", "p", "", "", "Work", false, [], "t0", "t0"⟩

theorem decNat_enc (n : Nat) (r : List Nat) : decNat (encNat n ++ r) = some (n, r) :=
  rfl

theorem decTake_enc (l r : List Nat) : decTake l.length (l ++ r) = some (l, r) := by
  simp [decTake]

theorem decTake_of_len (k : Nat) (l r : List Nat) (h : l.length = k) :
    decTake k (l ++ r) = some (l, r) := by
  subst h
  simp [decTake]

theorem map_ofNat_toNat (cs : List Char) : (cs.map Char.toNat).map Char.ofNat = cs := by
  simp [List.map_map, Function.comp_def, Char.ofNat_toNat]

theorem decStr_enc (s : String) (r : List Nat) : decStr (encStr s ++ r) = some (s, r) := by
  simp [decStr, encStr, decNat, decTake_of_len, Function.comp_def, Char.ofNat_toNat]

theorem decBool_enc (b : Bool) (r : List Nat) : decBool (encBool b ++ r) = some (b, r) := by
  cases b <;> simp [decBool, encBool, decNat]

theorem decBytes_enc (b r : List Nat) : decBytes (encBytes b ++ r) = some (b, r) := by
  simp [decBytes, encBytes, decNat, decTake_enc]

theorem decOptBytes_enc (o : Option (List Nat)) (r : List Nat) :
    decOptBytes (encOptBytes o ++ r) = some (o, r) := by
  cases o <;> simp [decOptBytes, encOptBytes, decNat, decBytes_enc]

theorem decPlainVal_enc (p : PlainVal) (r : List Nat) :
    decPlainVal (encPlainVal p ++ r) = some (p, r) := by
  cases p <;> simp [decPlainVal, encPlainVal, decNat, decStr_enc, decBytes_enc]

theorem decFKey_enc (k : FKey) (r : List Nat) : decFKey (encFKey k ++ r) = some (k, r) := by
  simp [decFKey, encFKey, List.append_assoc, decStr_enc, decBytes_enc]

theorem decToken_enc (t : Token) (r : List Nat) : decToken (encToken t ++ r) = some (t, r) := by
  simp [decToken, encToken, encNat, List.append_assoc, decNat, decFKey_enc, decPlainVal_enc]

theorem decListAux_enc (f : List Nat → Option (α × List Nat)) (enc : α → List Nat)
    (hf : ∀ x r, f (enc x ++ r) = some (x, r)) :
    ∀ (xs : List α) (r : List Nat), decListAux f xs.length (xs.flatMap enc ++ r) = some (xs, r) := by
  intro xs
  induction xs with
  | nil => intro r; simp [decListAux]
  | cons x xs ih => intro r; simp [decListAux, List.append_assoc, hf, ih]

theorem decList_enc (f : List Nat → Option (α × List Nat)) (enc : α → List Nat)
    (hf : ∀ x r, f (enc x ++ r) = some (x, r)) (xs : List α) (r : List Nat) :
    decList f (encList enc xs ++ r) = some (xs, r) := by
  simp [decList, encList, decNat, decListAux_enc f enc hf]

set_option maxHeartbeats 1000000 in
theorem decFileDict_enc (d : FileDict) (r : List Nat) :
    decFileDict (encFileDict d ++ r) = some (d, r) := by
  simp [decFileDict, encFileDict, List.append_assoc, decStr_enc, decBytes_enc, decNat_enc,
    decBool_enc]

set_option maxHeartbeats 1000000 in
theorem decPasswordDict_enc (d : EncPasswordDict) (r : List Nat) :
    decPasswordDict (encPasswordDict d ++ r) = some (d, r) := by
  simp [decPasswordDict, encPasswordDict, List.append_assoc, decStr_enc, decToken_enc,
    decBool_enc, decList_enc decFileDict encFileDict decFileDict_enc]

set_option maxHeartbeats 1000000 in
theorem decNoteDict_enc (d : EncNoteDict) (r : List Nat) :
    decNoteDict (encNoteDict d ++ r) = some (d, r) := by
  simp [decNoteDict, encNoteDict, List.append_assoc, decStr_enc, decToken_enc, decBool_enc,
    decList_enc decFileDict encFileDict decFileDict_enc]

theorem decCardDictA_enc (t ct : String) (num : Token) (hold em2 ey : String) (cvv : Token)
    (r : List Nat) :
    decCardDictA (encStr t ++ (encStr ct ++ (encToken num ++ (encStr hold ++ (encStr em2 ++
      (encStr ey ++ (encToken cvv ++ r))))))) = some ((t, ct, num, hold, em2, ey, cvv), r) := by
  simp [decCardDictA, List.append_assoc, decStr_enc, decToken_enc]

theorem decCardDictB_enc (nts : Token) (cat : String) (fav : Bool) (att : List FileDict)
    (cre mo : String) (r : List Nat) :
    decCardDictB (encToken nts ++ (encStr cat ++ (encBool fav ++ (encList encFileDict att ++
      (encStr cre ++ (encStr mo ++ r)))))) = some ((nts, cat, fav, att, cre, mo), r) := by
  simp [decCardDictB, List.append_assoc, decToken_enc, decStr_enc, decBool_enc,
    decList_enc decFileDict encFileDict decFileDict_enc]

set_option maxHeartbeats 1000000 in
theorem decCardDict_enc (d : EncCardDict) (r : List Nat) :
    decCardDict (encCardDict d ++ r) = some (d, r) := by
  simp [decCardDict, encCardDict, List.append_assoc, decCardDictA_enc, decCardDictB_enc]

theorem decIdentityDictA_enc (t fn ln email phone addr city : String) (r : List Nat) :
    decIdentityDictA (encStr t ++ (encStr fn ++ (encStr ln ++ (encStr email ++ (encStr phone ++
      (encStr addr ++ (encStr city ++ r))))))) = some ((t, fn, ln, email, phone, addr, city), r) := by
  simp [decIdentityDictA, List.append_assoc, decStr_enc]

theorem decIdentityDictB_enc (st zip country dob : String) (ssn dl pp : Token) (r : List Nat) :
    decIdentityDictB (encStr st ++ (encStr zip ++ (encStr country ++ (encStr dob ++
      (encToken ssn ++ (encToken dl ++ (encToken pp ++ r))))))) =
      some ((st, zip, country, dob, ssn, dl, pp), r) := by
  simp [decIdentityDictB, List.append_assoc, decStr_enc, decToken_enc]

theorem decIdentityDictC_enc (nts : Token) (cat : String) (fav : Bool) (att : List FileDict)
    (cre mo : String) (r : List Nat) :
    decIdentityDictC (encToken nts ++ (encStr cat ++ (encBool fav ++ (encList encFileDict att ++
      (encStr cre ++ (encStr mo ++ r)))))) = some ((nts, cat, fav, att, cre, mo), r) := by
  simp [decIdentityDictC, List.append_assoc, decToken_enc, decStr_enc, decBool_enc,
    decList_enc decFileDict encFileDict decFileDict_enc]

set_option maxHeartbeats 1000000 in
theorem decIdentityDict_enc (d : EncIdentityDict) (r : List Nat) :
    decIdentityDict (encIdentityDict d ++ r) = some (d, r) := by
  simp [decIdentityDict, encIdentityDict, List.append_assoc, decIdentityDictA_enc,
    decIdentityDictB_enc, decIdentityDictC_enc]

set_option maxHeartbeats 1000000 in
theorem decEncFileDict_enc (d : EncFileDict) (r : List Nat) :
    decEncFileDict (encEncFileDict d ++ r) = some (d, r) := by
  simp [decEncFileDict, encEncFileDict, List.append_assoc, decStr_enc, decToken_enc,
    decNat_enc, decBool_enc]

theorem decOptBytes_enc_nil (o : Option (List Nat)) :
    decOptBytes (encOptBytes o) = some (o, []) := by
  have h := decOptBytes_enc o []
  simpa using h

set_option maxHeartbeats 2000000 in
theorem decodeEnvelope_enc (e : EncEnvelope) : decodeEnvelope (encodeEnvelope e) = some e := by
  simp [decodeEnvelope, encodeEnvelope, List.append_assoc, decStr_enc, decOptBytes_enc,
    decOptBytes_enc_nil,
    decList_enc decPasswordDict encPasswordDict decPasswordDict_enc,
    decList_enc decNoteDict encNoteDict decNoteDict_enc,
    decList_enc decCardDict encCardDict decCardDict_enc,
    decList_enc decIdentityDict encIdentityDict decIdentityDict_enc,
    decList_enc decEncFileDict encEncFileDict decEncFileDict_enc]

theorem findSeq_export (p : List Nat) :
    findSeq lp_separator (lp_header ++ (lp_separator ++ p)) = some 22 := by
  simp [lp_header, lp_separator, findSeq, List.isPrefixOf]

theorem lp_header_isPrefixOf_append (x : List Nat) :
    lp_header.isPrefixOf (lp_header ++ x) = true := by
  simp [List.isPrefixOf_iff_prefix]

theorem encodeEnvelope_ne_nil (e : EncEnvelope) : encodeEnvelope e ≠ [] := by
  simp [encodeEnvelope, encList]

theorem header_sep_length : (lp_header ++ lp_separator).length = 26 := by
  decide

theorem export_data_parse (pm pm2 : PasswordManager) (now : String) :
    pm2.import_data (pm.export_data now) =
      .ok (pm2.import_envelope (pm.export_envelope now)) := by
  unfold PasswordManager.import_data PasswordManager.export_data
  rw [List.append_assoc, lp_header_isPrefixOf_append, findSeq_export]
  have hlen : ¬ (lp_header ++ (lp_separator ++ encodeEnvelope (pm.export_envelope now))).length
      ≤ 22 + lp_separator.length := by
    have h0 := encodeEnvelope_ne_nil (pm.export_envelope now)
    cases hE : encodeEnvelope (pm.export_envelope now) with
    | nil => exact absurd hE h0
    | cons a l => simp [lp_header, lp_separator, hE]
  have hdrop : (lp_header ++ (lp_separator ++ encodeEnvelope (pm.export_envelope now))).drop
      (22 + lp_separator.length) = encodeEnvelope (pm.export_envelope now) := by
    rw [← List.append_assoc]
    exact List.drop_left' header_sep_length
  simp only [hlen, if_false, hdrop, decodeEnvelope_enc]
  have happ : (pm.export_envelope now).app_name = "LuckeePass" := rfl
  simp [happ]

theorem from_to_dict (f : FileEntry) : FileEntry.from_dict (FileEntry.to_dict f) = f :=
  rfl

theorem map_from_to_dict (fs : List FileEntry) :
    (fs.map FileEntry.to_dict).map FileEntry.from_dict = fs := by
  simp [List.map_map, Function.comp_def, from_to_dict]

theorem decrypt_encrypt (em em' : EncryptionManager) (p : PlainVal)
    (h : em'.derivedKey = em.derivedKey) :
    em'.decrypt (em.encrypt p) = .ok p := by
  simp [EncryptionManager.decrypt, EncryptionManager.encrypt, h]

theorem decrypt_encrypt_ne (em em' : EncryptionManager) (p : PlainVal)
    (h : em'.derivedKey ≠ em.derivedKey) :
    em'.decrypt (em.encrypt p) = .error "InvalidToken" := by
  simp [EncryptionManager.decrypt, EncryptionManager.encrypt]
  intro hk
  exact absurd hk.symm h

theorem decrypt_tamper (em' : EncryptionManager) (t : Token) :
    em'.decrypt (tamperToken t) = .error "InvalidToken" := by
  simp [EncryptionManager.decrypt, tamperToken]

theorem decryptPasswordEntry_encrypt (em em' : EncryptionManager) (e : PasswordEntry)
    (h : em'.derivedKey = em.derivedKey) :
    decryptPasswordEntry em' (encryptPasswordEntry em e) = .ok e := by
  simp [decryptPasswordEntry, encryptPasswordEntry, decrypt_encrypt em em' _ h,
    PlainVal.expectStr, map_from_to_dict, Bind.bind, Except.bind, Function.comp_def, from_to_dict]

theorem decryptPasswordEntry_wrongkey (em em' : EncryptionManager) (e : PasswordEntry)
    (h : em'.derivedKey ≠ em.derivedKey) :
    decryptPasswordEntry em' (encryptPasswordEntry em e) = .error "InvalidToken" := by
  simp [decryptPasswordEntry, encryptPasswordEntry, decrypt_encrypt_ne em em' _ h, Bind.bind, Except.bind]

theorem decryptSecureNote_encrypt (em em' : EncryptionManager) (n : SecureNote)
    (h : em'.derivedKey = em.derivedKey) :
    decryptSecureNote em' (encryptSecureNote em n) = .ok n := by
  simp [decryptSecureNote, encryptSecureNote, decrypt_encrypt em em' _ h,
    PlainVal.expectStr, map_from_to_dict, Bind.bind, Except.bind, Function.comp_def, from_to_dict]

theorem decryptSecureNote_wrongkey (em em' : EncryptionManager) (n : SecureNote)
    (h : em'.derivedKey ≠ em.derivedKey) :
    decryptSecureNote em' (encryptSecureNote em n) = .error "InvalidToken" := by
  simp [decryptSecureNote, encryptSecureNote, decrypt_encrypt_ne em em' _ h, Bind.bind, Except.bind]

theorem decryptCardEntry_encrypt (em em' : EncryptionManager) (c : CardEntry)
    (h : em'.derivedKey = em.derivedKey) :
    decryptCardEntry em' (encryptCardEntry em c) = .ok c := by
  simp [decryptCardEntry, encryptCardEntry, decrypt_encrypt em em' _ h,
    PlainVal.expectStr, map_from_to_dict, Bind.bind, Except.bind, Function.comp_def, from_to_dict]

theorem decryptCardEntry_wrongkey (em em' : EncryptionManager) (c : CardEntry)
    (h : em'.derivedKey ≠ em.derivedKey) :
    decryptCardEntry em' (encryptCardEntry em c) = .error "InvalidToken" := by
  simp [decryptCardEntry, encryptCardEntry, decrypt_encrypt_ne em em' _ h, Bind.bind, Except.bind]

theorem decryptIdentityEntry_encrypt (em em' : EncryptionManager) (i : IdentityEntry)
    (h : em'.derivedKey = em.derivedKey) :
    decryptIdentityEntry em' (encryptIdentityEntry em i) = .ok i := by
  simp [decryptIdentityEntry, encryptIdentityEntry, decrypt_encrypt em em' _ h,
    PlainVal.expectStr, map_from_to_dict, Bind.bind, Except.bind, Function.comp_def, from_to_dict]

theorem decryptIdentityEntry_wrongkey (em em' : EncryptionManager) (i : IdentityEntry)
    (h : em'.derivedKey ≠ em.derivedKey) :
    decryptIdentityEntry em' (encryptIdentityEntry em i) = .error "InvalidToken" := by
  simp [decryptIdentityEntry, encryptIdentityEntry, decrypt_encrypt_ne em em' _ h, Bind.bind, Except.bind]

theorem decryptFileEntry_encrypt (em em' : EncryptionManager) (f : FileEntry)
    (h : em'.derivedKey = em.derivedKey) :
    decryptFileEntry em' (encryptFileEntry em f) = .ok f := by
  simp [decryptFileEntry, encryptFileEntry, decrypt_encrypt em em' _ h,
    PlainVal.expectStr, PlainVal.expectBytes, Bind.bind, Except.bind]

theorem decryptFileEntry_wrongkey (em em' : EncryptionManager) (f : FileEntry)
    (h : em'.derivedKey ≠ em.derivedKey) :
    decryptFileEntry em' (encryptFileEntry em f) = .error "InvalidToken" := by
  simp [decryptFileEntry, encryptFileEntry, decrypt_encrypt_ne em em' _ h, Bind.bind, Except.bind]

theorem importLoop_records {δ ρ : Type} (dec : δ → Except String ρ) (c : ρ → String)
    (t : δ → String) (w : String) (ds : List δ) :
    ∀ cats, (importLoop dec c t w cats ds).1 = ds.filterMap (fun d => (dec d).toOption) := by
  induction ds with
  | nil => intro cats; simp [importLoop]
  | cons d rest ih =>
    intro cats
    cases hd : dec d with
    | ok e => simp [importLoop, hd, ih, Except.toOption]
    | error m => simp [importLoop, hd, ih, Except.toOption]

theorem importLoop_warnings {δ ρ : Type} (dec : δ → Except String ρ) (c : ρ → String)
    (t : δ → String) (w : String) (ds : List δ) :
    ∀ cats, (importLoop dec c t w cats ds).2.2.length =
      ds.countP (fun d => (dec d).toOption.isNone) := by
  induction ds with
  | nil => intro cats; simp [importLoop]
  | cons d rest ih =>
    intro cats
    cases hd : dec d with
    | ok e => simp [importLoop, hd, ih, Except.toOption, List.countP_cons]
    | error m => simp [importLoop, hd, ih, Except.toOption, List.countP_cons]

theorem importLoop_ok {δ ρ : Type} (dec : δ → Except String ρ) (c : ρ → String)
    (t : δ → String) (w : String) (g : δ → ρ) (ds : List δ)
    (h : ∀ d ∈ ds, dec d = .ok (g d)) :
    ∀ cats, (importLoop dec c t w cats ds).1 = ds.map g ∧
      (importLoop dec c t w cats ds).2.2 = [] := by
  induction ds with
  | nil => intro cats; simp [importLoop]
  | cons d rest ih =>
    intro cats
    have hd : dec d = .ok (g d) := h d (by simp)
    have ih2 := ih (fun x hx => h x (by simp [hx]))
    simp [importLoop, hd, ih2]

theorem importLoop_fail {δ ρ : Type} (dec : δ → Except String ρ) (c : ρ → String)
    (t : δ → String) (w : String) (ds : List δ)
    (h : ∀ d ∈ ds, ∃ m, dec d = .error m) :
    ∀ cats, (importLoop dec c t w cats ds).1 = [] ∧
      (importLoop dec c t w cats ds).2.2.length = ds.length := by
  induction ds with
  | nil => intro cats; simp [importLoop]
  | cons d rest ih =>
    intro cats
    obtain ⟨m, hd⟩ := h d (by simp)
    have ih2 := ih (fun x hx => h x (by simp [hx]))
    simp [importLoop, hd, ih2]

theorem importLoop_set {δ ρ : Type} (dec : δ → Except String ρ) (c : ρ → String)
    (t : δ → String) (w : String) (g : δ → ρ) (ds : List δ)
    (h : ∀ d ∈ ds, dec d = .ok (g d)) (b : δ) (m : String) (hb : dec b = .error m) :
    ∀ i cats, (importLoop dec c t w cats (ds.set i b)).1 = (ds.map g).eraseIdx i := by
  induction ds with
  | nil => intro i cats; simp [importLoop]
  | cons d rest ih =>
    intro i cats
    have hd : dec d = .ok (g d) := h d (by simp)
    have hrest : ∀ x ∈ rest, dec x = .ok (g x) := fun x hx => h x (by simp [hx])
    cases i with
    | zero =>
      simp only [List.set]
      have hall := importLoop_ok dec c t w g rest hrest
      simp [importLoop, hb, (hall _).1]
    | succ n =>
      simp only [List.set]
      simp [importLoop, hd, ih hrest n]

theorem foldl_favAppend {α : Type} (p : α → Bool) (g : α → FavItem) (l : List α) :
    ∀ init, l.foldl (fun acc x => if p x then acc ++ [g x] else acc) init =
      init ++ (l.filter p).map g := by
  induction l with
  | nil => intro init; simp
  | cons x xs ih =>
    intro init
    by_cases h : p x <;> simp [h, ih, List.filter_cons]

theorem favorites_spec (pm : PasswordManager) :
    pm.favorites =
      (pm.passwords.filter (fun e => e.is_favorite)).map FavItem.password ++
      (pm.notes.filter (fun n => n.is_favorite)).map FavItem.note ++
      (pm.cards.filter (fun c => c.is_favorite)).map FavItem.card ++
      (pm.identities.filter (fun i => i.is_favorite)).map FavItem.identity ++
      (pm.files.filter (fun f => f.is_favorite)).map FavItem.file := by
  simp [PasswordManager.favorites, foldl_favAppend, List.append_assoc]

theorem export_tokens_key (pm : PasswordManager) (now : String) (tok : Token)
    (htok : tok ∈ envelopeTokens (pm.export_envelope now)) :
    tok.key = pm.encryption_manager.derivedKey := by
  simp only [envelopeTokens, PasswordManager.export_envelope, List.mem_append,
    List.mem_flatMap, List.mem_map, encryptPasswordEntry, encryptSecureNote,
    encryptCardEntry, encryptIdentityEntry, encryptFileEntry,
    EncryptionManager.encrypt] at htok
  rcases htok with ((((⟨d, ⟨e, _, rfl⟩, hm⟩ | ⟨d, ⟨e, _, rfl⟩, rfl⟩) |
      ⟨d, ⟨e, _, rfl⟩, hm⟩) | ⟨d, ⟨e, _, rfl⟩, hm⟩) | ⟨d, ⟨e, _, rfl⟩, hm⟩) <;>
    first
      | rfl
      | (simp only [List.mem_cons, List.mem_singleton, List.not_mem_nil, or_false] at hm
         rcases hm with rfl | rfl | rfl | rfl <;> rfl)

theorem importLoop_map {δ ρ : Type} (dec : δ → Except String ρ) (enc : ρ → δ)
    (c : ρ → String) (t : δ → String) (w : String) (xs : List ρ)
    (h : ∀ x ∈ xs, dec (enc x) = .ok x) :
    ∀ cats, (importLoop dec c t w cats (xs.map enc)).1 = xs ∧
      (importLoop dec c t w cats (xs.map enc)).2.2 = [] := by
  induction xs with
  | nil => intro cats; simp [importLoop]
  | cons x rest ih =>
    intro cats
    have hx : dec (enc x) = .ok x := h x (by simp)
    have ih2 := ih (fun y hy => h y (by simp [hy]))
    simp [importLoop, hx, ih2]

theorem importLoop_map_set {δ ρ : Type} (dec : δ → Except String ρ) (enc : ρ → δ)
    (c : ρ → String) (t : δ → String) (w : String) (xs : List ρ)
    (h : ∀ x ∈ xs, dec (enc x) = .ok x) (b : δ) (m : String) (hb : dec b = .error m) :
    ∀ i cats, (importLoop dec c t w cats ((xs.map enc).set i b)).1 = xs.eraseIdx i := by
  induction xs with
  | nil => intro i cats; simp [importLoop]
  | cons x rest ih =>
    intro i cats
    have hx : dec (enc x) = .ok x := h x (by simp)
    have hrest : ∀ y ∈ rest, dec (enc y) = .ok y := fun y hy => h y (by simp [hy])
    cases i with
    | zero =>
      simp only [List.map_cons, List.set]
      have hall := importLoop_map dec enc c t w rest hrest
      simp [importLoop, hb, (hall _).1]
    | succ n =>
      simp only [List.map_cons, List.set]
      simp [importLoop, hx, ih hrest n]

theorem decryptPasswordEntry_tamper (em em' : EncryptionManager) (e : PasswordEntry)
    (j : Nat) (h : em'.derivedKey = em.derivedKey) :
    decryptPasswordEntry em' (tamperPasswordField j (encryptPasswordEntry em e)) =
      .error "InvalidToken" := by
  unfold tamperPasswordField
  by_cases hj : j % 2 = 0 <;>
    simp [hj, decryptPasswordEntry, encryptPasswordEntry, decrypt_tamper,
      decrypt_encrypt em em' _ h, PlainVal.expectStr, Bind.bind, Except.bind]

theorem decryptSecureNote_tamper (em em' : EncryptionManager) (n : SecureNote)
    (h : em'.derivedKey = em.derivedKey) :
    decryptSecureNote em' (tamperNoteField (encryptSecureNote em n)) =
      .error "InvalidToken" := by
  simp [tamperNoteField, decryptSecureNote, encryptSecureNote, decrypt_tamper,
    Bind.bind, Except.bind]

theorem decryptCardEntry_tamper (em em' : EncryptionManager) (c : CardEntry)
    (j : Nat) (h : em'.derivedKey = em.derivedKey) :
    decryptCardEntry em' (tamperCardField j (encryptCardEntry em c)) =
      .error "InvalidToken" := by
  unfold tamperCardField
  by_cases h0 : j % 3 = 0
  · simp [h0, decryptCardEntry, encryptCardEntry, decrypt_tamper,
      decrypt_encrypt em em' _ h, PlainVal.expectStr, Bind.bind, Except.bind]
  · by_cases h1 : j % 3 = 1 <;>
      simp [h0, h1, decryptCardEntry, encryptCardEntry, decrypt_tamper,
        decrypt_encrypt em em' _ h, PlainVal.expectStr, Bind.bind, Except.bind]

theorem decryptIdentityEntry_tamper (em em' : EncryptionManager) (i : IdentityEntry)
    (j : Nat) (h : em'.derivedKey = em.derivedKey) :
    decryptIdentityEntry em' (tamperIdentityField j (encryptIdentityEntry em i)) =
      .error "InvalidToken" := by
  unfold tamperIdentityField
  by_cases h0 : j % 4 = 0
  · simp [h0, decryptIdentityEntry, encryptIdentityEntry, decrypt_tamper,
      decrypt_encrypt em em' _ h, PlainVal.expectStr, Bind.bind, Except.bind]
  · by_cases h1 : j % 4 = 1
    · simp [h0, h1, decryptIdentityEntry, encryptIdentityEntry, decrypt_tamper,
        decrypt_encrypt em em' _ h, PlainVal.expectStr, Bind.bind, Except.bind]
    · by_cases h2 : j % 4 = 2 <;>
        simp [h0, h1, h2, decryptIdentityEntry, encryptIdentityEntry, decrypt_tamper,
          decrypt_encrypt em em' _ h, PlainVal.expectStr, Bind.bind, Except.bind]

theorem decryptFileEntry_tamper (em em' : EncryptionManager) (f : FileEntry)
    (j : Nat) (h : em'.derivedKey = em.derivedKey) :
    decryptFileEntry em' (tamperFileField j (encryptFileEntry em f)) =
      .error "InvalidToken" := by
  unfold tamperFileField
  by_cases hj : j % 2 = 0 <;>
    simp [hj, decryptFileEntry, encryptFileEntry, decrypt_tamper,
      decrypt_encrypt em em' _ h, PlainVal.expectBytes, Bind.bind, Except.bind]

theorem import_envelope_em (pm : PasswordManager) (env : EncEnvelope) (salt : List Nat)
    (hs : env.encryption_salt = some salt) :
    (pm.import_envelope env).1.encryption_manager = ⟨pm.master_password, salt⟩ := by
  simp [PasswordManager.import_envelope, hs]

theorem import_envelope_export_ok (pm pm2 : PasswordManager) (now : String)
    (hmp : pm2.master_password = pm.encryption_manager.master_password) :
    (pm2.import_envelope (pm.export_envelope now)).1.passwords = pm.passwords ∧
    (pm2.import_envelope (pm.export_envelope now)).1.notes = pm.notes ∧
    (pm2.import_envelope (pm.export_envelope now)).1.cards = pm.cards ∧
    (pm2.import_envelope (pm.export_envelope now)).1.identities = pm.identities ∧
    (pm2.import_envelope (pm.export_envelope now)).1.files = pm.files ∧
    (pm2.import_envelope (pm.export_envelope now)).2 = [] ∧
    (pm2.import_envelope (pm.export_envelope now)).1.encryption_manager =
      ⟨pm2.master_password, pm.encryption_manager.salt⟩ := by
  have hkey : (EncryptionManager.mk pm2.master_password pm.encryption_manager.salt).derivedKey
      = pm.encryption_manager.derivedKey := by
    simp [EncryptionManager.derivedKey, hmp]
  have hp := importLoop_map (decryptPasswordEntry ⟨pm2.master_password, pm.encryption_manager.salt⟩)
    (encryptPasswordEntry pm.encryption_manager) (fun e => e.category) (fun d => d.title)
    "Warning: Could not decrypt password entry " pm.passwords
    (fun x _ => decryptPasswordEntry_encrypt _ _ x hkey)
  have hn := importLoop_map (decryptSecureNote ⟨pm2.master_password, pm.encryption_manager.salt⟩)
    (encryptSecureNote pm.encryption_manager) (fun e => e.category) (fun d => d.title)
    "Warning: Could not decrypt note " pm.notes
    (fun x _ => decryptSecureNote_encrypt _ _ x hkey)
  have hc := importLoop_map (decryptCardEntry ⟨pm2.master_password, pm.encryption_manager.salt⟩)
    (encryptCardEntry pm.encryption_manager) (fun e => e.category) (fun d => d.title)
    "Warning: Could not decrypt card entry " pm.cards
    (fun x _ => decryptCardEntry_encrypt _ _ x hkey)
  have hi := importLoop_map (decryptIdentityEntry ⟨pm2.master_password, pm.encryption_manager.salt⟩)
    (encryptIdentityEntry pm.encryption_manager) (fun e => e.category) (fun d => d.title)
    "Warning: Could not decrypt identity entry " pm.identities
    (fun x _ => decryptIdentityEntry_encrypt _ _ x hkey)
  have hf := importLoop_map (decryptFileEntry ⟨pm2.master_password, pm.encryption_manager.salt⟩)
    (encryptFileEntry pm.encryption_manager) (fun e => e.category) (fun d => d.title)
    "Warning: Could not decrypt file " pm.files
    (fun x _ => decryptFileEntry_encrypt _ _ x hkey)
  simp [PasswordManager.import_envelope, PasswordManager.export_envelope,
    EncryptionManager.get_salt, importPasswords, importNotes, importCards,
    importIdentities, importFiles, (hp _).1, (hp _).2, (hn _).1, (hn _).2,
    (hc _).1, (hc _).2, (hi _).1, (hi _).2, (hf _).1, (hf _).2]

theorem import_envelope_export_wrong (pm pm2 : PasswordManager) (now : String)
    (hmp : pm2.master_password ≠ pm.encryption_manager.master_password) :
    (pm2.import_envelope (pm.export_envelope now)).1.passwords = [] ∧
    (pm2.import_envelope (pm.export_envelope now)).1.notes = [] ∧
    (pm2.import_envelope (pm.export_envelope now)).1.cards = [] ∧
    (pm2.import_envelope (pm.export_envelope now)).1.identities = [] ∧
    (pm2.import_envelope (pm.export_envelope now)).1.files = [] ∧
    (pm2.import_envelope (pm.export_envelope now)).2.length =
      pm.passwords.length + pm.notes.length + pm.cards.length +
      pm.identities.length + pm.files.length := by
  have hkey : (EncryptionManager.mk pm2.master_password pm.encryption_manager.salt).derivedKey
      ≠ pm.encryption_manager.derivedKey := by
    simp [EncryptionManager.derivedKey, FKey.mk.injEq]
    intro hc
    exact absurd hc hmp
  have hp := importLoop_fail (decryptPasswordEntry ⟨pm2.master_password, pm.encryption_manager.salt⟩)
    (fun e => e.category) (fun d => d.title) "Warning: Could not decrypt password entry "
    (pm.passwords.map (encryptPasswordEntry pm.encryption_manager))
    (by
      intro d hd
      obtain ⟨x, _, rfl⟩ := List.mem_map.1 hd
      exact ⟨_, decryptPasswordEntry_wrongkey _ _ x hkey⟩)
  have hn := importLoop_fail (decryptSecureNote ⟨pm2.master_password, pm.encryption_manager.salt⟩)
    (fun e => e.category) (fun d => d.title) "Warning: Could not decrypt note "
    (pm.notes.map (encryptSecureNote pm.encryption_manager))
    (by
      intro d hd
      obtain ⟨x, _, rfl⟩ := List.mem_map.1 hd
      exact ⟨_, decryptSecureNote_wrongkey _ _ x hkey⟩)
  have hc := importLoop_fail (decryptCardEntry ⟨pm2.master_password, pm.encryption_manager.salt⟩)
    (fun e => e.category) (fun d => d.title) "Warning: Could not decrypt card entry "
    (pm.cards.map (encryptCardEntry pm.encryption_manager))
    (by
      intro d hd
      obtain ⟨x, _, rfl⟩ := List.mem_map.1 hd
      exact ⟨_, decryptCardEntry_wrongkey _ _ x hkey⟩)
  have hi := importLoop_fail (decryptIdentityEntry ⟨pm2.master_password, pm.encryption_manager.salt⟩)
    (fun e => e.category) (fun d => d.title) "Warning: Could not decrypt identity entry "
    (pm.identities.map (encryptIdentityEntry pm.encryption_manager))
    (by
      intro d hd
      obtain ⟨x, _, rfl⟩ := List.mem_map.1 hd
      exact ⟨_, decryptIdentityEntry_wrongkey _ _ x hkey⟩)
  have hf := importLoop_fail (decryptFileEntry ⟨pm2.master_password, pm.encryption_manager.salt⟩)
    (fun e => e.category) (fun d => d.title) "Warning: Could not decrypt file "
    (pm.files.map (encryptFileEntry pm.encryption_manager))
    (by
      intro d hd
      obtain ⟨x, _, rfl⟩ := List.mem_map.1 hd
      exact ⟨_, decryptFileEntry_wrongkey _ _ x hkey⟩)
  simp [PasswordManager.import_envelope, PasswordManager.export_envelope,
    EncryptionManager.get_salt, importPasswords, importNotes, importCards,
    importIdentities, importFiles, (hp _).1, (hp _).2, (hn _).1, (hn _).2,
    (hc _).1, (hc _).2, (hi _).1, (hi _).2, (hf _).1, (hf _).2]
  omega

theorem import_envelope_tamper_password (pm pm2 : PasswordManager) (now : String)
    (hmp : pm2.master_password = pm.encryption_manager.master_password)
    (e : PasswordEntry) (i j : Nat) :
    (pm2.import_envelope { pm.export_envelope now with
        passwords := (pm.export_envelope now).passwords.set i
          (tamperPasswordField j (encryptPasswordEntry pm.encryption_manager e)) }).1.passwords =
      pm.passwords.eraseIdx i ∧
    (pm2.import_envelope { pm.export_envelope now with
        passwords := (pm.export_envelope now).passwords.set i
          (tamperPasswordField j (encryptPasswordEntry pm.encryption_manager e)) }).1.notes =
      pm.notes ∧
    (pm2.import_envelope { pm.export_envelope now with
        passwords := (pm.export_envelope now).passwords.set i
          (tamperPasswordField j (encryptPasswordEntry pm.encryption_manager e)) }).1.cards =
      pm.cards ∧
    (pm2.import_envelope { pm.export_envelope now with
        passwords := (pm.export_envelope now).passwords.set i
          (tamperPasswordField j (encryptPasswordEntry pm.encryption_manager e)) }).1.identities =
      pm.identities ∧
    (pm2.import_envelope { pm.export_envelope now with
        passwords := (pm.export_envelope now).passwords.set i
          (tamperPasswordField j (encryptPasswordEntry pm.encryption_manager e)) }).1.files =
      pm.files := by
  have hkey : (EncryptionManager.mk pm2.master_password pm.encryption_manager.salt).derivedKey
      = pm.encryption_manager.derivedKey := by
    simp [EncryptionManager.derivedKey, hmp]
  have hp := importLoop_map_set
    (decryptPasswordEntry ⟨pm2.master_password, pm.encryption_manager.salt⟩)
    (encryptPasswordEntry pm.encryption_manager) (fun e => e.category) (fun d => d.title)
    "Warning: Could not decrypt password entry " pm.passwords
    (fun x _ => decryptPasswordEntry_encrypt _ _ x hkey)
    (tamperPasswordField j (encryptPasswordEntry pm.encryption_manager e)) "InvalidToken"
    (decryptPasswordEntry_tamper _ _ e j hkey)
  have hn := importLoop_map (decryptSecureNote ⟨pm2.master_password, pm.encryption_manager.salt⟩)
    (encryptSecureNote pm.encryption_manager) (fun e => e.category) (fun d => d.title)
    "Warning: Could not decrypt note " pm.notes
    (fun x _ => decryptSecureNote_encrypt _ _ x hkey)
  have hc := importLoop_map (decryptCardEntry ⟨pm2.master_password, pm.encryption_manager.salt⟩)
    (encryptCardEntry pm.encryption_manager) (fun e => e.category) (fun d => d.title)
    "Warning: Could not decrypt card entry " pm.cards
    (fun x _ => decryptCardEntry_encrypt _ _ x hkey)
  have hi := importLoop_map (decryptIdentityEntry ⟨pm2.master_password, pm.encryption_manager.salt⟩)
    (encryptIdentityEntry pm.encryption_manager) (fun e => e.category) (fun d => d.title)
    "Warning: Could not decrypt identity entry " pm.identities
    (fun x _ => decryptIdentityEntry_encrypt _ _ x hkey)
  have hf := importLoop_map (decryptFileEntry ⟨pm2.master_password, pm.encryption_manager.salt⟩)
    (encryptFileEntry pm.encryption_manager) (fun e => e.category) (fun d => d.title)
    "Warning: Could not decrypt file " pm.files
    (fun x _ => decryptFileEntry_encrypt _ _ x hkey)
  simp [PasswordManager.import_envelope, PasswordManager.export_envelope,
    EncryptionManager.get_salt, importPasswords, importNotes, importCards,
    importIdentities, importFiles, hp, (hn _).1, (hc _).1, (hi _).1, (hf _).1]

theorem import_envelope_tamper_note (pm pm2 : PasswordManager) (now : String)
    (hmp : pm2.master_password = pm.encryption_manager.master_password)
    (e : SecureNote) (i : Nat) :
    (pm2.import_envelope { pm.export_envelope now with
        notes := (pm.export_envelope now).notes.set i
          (tamperNoteField (encryptSecureNote pm.encryption_manager e)) }).1.passwords =
      pm.passwords ∧
    (pm2.import_envelope { pm.export_envelope now with
        notes := (pm.export_envelope now).notes.set i
          (tamperNoteField (encryptSecureNote pm.encryption_manager e)) }).1.notes =
      pm.notes.eraseIdx i ∧
    (pm2.import_envelope { pm.export_envelope now with
        notes := (pm.export_envelope now).notes.set i
          (tamperNoteField (encryptSecureNote pm.encryption_manager e)) }).1.cards =
      pm.cards ∧
    (pm2.import_envelope { pm.export_envelope now with
        notes := (pm.export_envelope now).notes.set i
          (tamperNoteField (encryptSecureNote pm.encryption_manager e)) }).1.identities =
      pm.identities ∧
    (pm2.import_envelope { pm.export_envelope now with
        notes := (pm.export_envelope now).notes.set i
          (tamperNoteField (encryptSecureNote pm.encryption_manager e)) }).1.files =
      pm.files := by
  have hkey : (EncryptionManager.mk pm2.master_password pm.encryption_manager.salt).derivedKey
      = pm.encryption_manager.derivedKey := by
    simp [EncryptionManager.derivedKey, hmp]
  have hp0 := importLoop_map (decryptPasswordEntry ⟨pm2.master_password, pm.encryption_manager.salt⟩)
    (encryptPasswordEntry pm.encryption_manager) (fun e => e.category) (fun d => d.title)
    "Warning: Could not decrypt password entry " pm.passwords
    (fun x _ => decryptPasswordEntry_encrypt _ _ x hkey)
  have hset := importLoop_map_set
    (decryptSecureNote ⟨pm2.master_password, pm.encryption_manager.salt⟩)
    (encryptSecureNote pm.encryption_manager) (fun e => e.category) (fun d => d.title)
    "Warning: Could not decrypt note " pm.notes
    (fun x _ => decryptSecureNote_encrypt _ _ x hkey)
    (tamperNoteField (encryptSecureNote pm.encryption_manager e)) "InvalidToken"
    (decryptSecureNote_tamper _ _ e hkey)
  have hc0 := importLoop_map (decryptCardEntry ⟨pm2.master_password, pm.encryption_manager.salt⟩)
    (encryptCardEntry pm.encryption_manager) (fun e => e.category) (fun d => d.title)
    "Warning: Could not decrypt card entry " pm.cards
    (fun x _ => decryptCardEntry_encrypt _ _ x hkey)
  have hi0 := importLoop_map (decryptIdentityEntry ⟨pm2.master_password, pm.encryption_manager.salt⟩)
    (encryptIdentityEntry pm.encryption_manager) (fun e => e.category) (fun d => d.title)
    "Warning: Could not decrypt identity entry " pm.identities
    (fun x _ => decryptIdentityEntry_encrypt _ _ x hkey)
  have hf0 := importLoop_map (decryptFileEntry ⟨pm2.master_password, pm.encryption_manager.salt⟩)
    (encryptFileEntry pm.encryption_manager) (fun e => e.category) (fun d => d.title)
    "Warning: Could not decrypt file " pm.files
    (fun x _ => decryptFileEntry_encrypt _ _ x hkey)
  simp [PasswordManager.import_envelope, PasswordManager.export_envelope,
    EncryptionManager.get_salt, importPasswords, importNotes, importCards,
    importIdentities, importFiles, (hp0 _).1, hset, (hc0 _).1, (hi0 _).1, (hf0 _).1]

theorem import_envelope_tamper_card (pm pm2 : PasswordManager) (now : String)
    (hmp : pm2.master_password = pm.encryption_manager.master_password)
    (e : CardEntry) (i j : Nat) :
    (pm2.import_envelope { pm.export_envelope now with
        cards := (pm.export_envelope now).cards.set i
          (tamperCardField j (encryptCardEntry pm.encryption_manager e)) }).1.passwords =
      pm.passwords ∧
    (pm2.import_envelope { pm.export_envelope now with
        cards := (pm.export_envelope now).cards.set i
          (tamperCardField j (encryptCardEntry pm.encryption_manager e)) }).1.notes =
      pm.notes ∧
    (pm2.import_envelope { pm.export_envelope now with
        cards := (pm.export_envelope now).cards.set i
          (tamperCardField j (encryptCardEntry pm.encryption_manager e)) }).1.cards =
      pm.cards.eraseIdx i ∧
    (pm2.import_envelope { pm.export_envelope now with
        cards := (pm.export_envelope now).cards.set i
          (tamperCardField j (encryptCardEntry pm.encryption_manager e)) }).1.identities =
      pm.identities ∧
    (pm2.import_envelope { pm.export_envelope now with
        cards := (pm.export_envelope now).cards.set i
          (tamperCardField j (encryptCardEntry pm.encryption_manager e)) }).1.files =
      pm.files := by
  have hkey : (EncryptionManager.mk pm2.master_password pm.encryption_manager.salt).derivedKey
      = pm.encryption_manager.derivedKey := by
    simp [EncryptionManager.derivedKey, hmp]
  have hp0 := importLoop_map (decryptPasswordEntry ⟨pm2.master_password, pm.encryption_manager.salt⟩)
    (encryptPasswordEntry pm.encryption_manager) (fun e => e.category) (fun d => d.title)
    "Warning: Could not decrypt password entry " pm.passwords
    (fun x _ => decryptPasswordEntry_encrypt _ _ x hkey)
  have hn0 := importLoop_map (decryptSecureNote ⟨pm2.master_password, pm.encryption_manager.salt⟩)
    (encryptSecureNote pm.encryption_manager) (fun e => e.category) (fun d => d.title)
    "Warning: Could not decrypt note " pm.notes
    (fun x _ => decryptSecureNote_encrypt _ _ x hkey)
  have hset := importLoop_map_set
    (decryptCardEntry ⟨pm2.master_password, pm.encryption_manager.salt⟩)
    (encryptCardEntry pm.encryption_manager) (fun e => e.category) (fun d => d.title)
    "Warning: Could not decrypt card entry " pm.cards
    (fun x _ => decryptCardEntry_encrypt _ _ x hkey)
    (tamperCardField j (encryptCardEntry pm.encryption_manager e)) "InvalidToken"
    (decryptCardEntry_tamper _ _ e j hkey)
  have hi0 := importLoop_map (decryptIdentityEntry ⟨pm2.master_password, pm.encryption_manager.salt⟩)
    (encryptIdentityEntry pm.encryption_manager) (fun e => e.category) (fun d => d.title)
    "Warning: Could not decrypt identity entry " pm.identities
    (fun x _ => decryptIdentityEntry_encrypt _ _ x hkey)
  have hf0 := importLoop_map (decryptFileEntry ⟨pm2.master_password, pm.encryption_manager.salt⟩)
    (encryptFileEntry pm.encryption_manager) (fun e => e.category) (fun d => d.title)
    "Warning: Could not decrypt file " pm.files
    (fun x _ => decryptFileEntry_encrypt _ _ x hkey)
  simp [PasswordManager.import_envelope, PasswordManager.export_envelope,
    EncryptionManager.get_salt, importPasswords, importNotes, importCards,
    importIdentities, importFiles, (hp0 _).1, (hn0 _).1, hset, (hi0 _).1, (hf0 _).1]

theorem import_envelope_tamper_identity (pm pm2 : PasswordManager) (now : String)
    (hmp : pm2.master_password = pm.encryption_manager.master_password)
    (e : IdentityEntry) (i j : Nat) :
    (pm2.import_envelope { pm.export_envelope now with
        identities := (pm.export_envelope now).identities.set i
          (tamperIdentityField j (encryptIdentityEntry pm.encryption_manager e)) }).1.passwords =
      pm.passwords ∧
    (pm2.import_envelope { pm.export_envelope now with
        identities := (pm.export_envelope now).identities.set i
          (tamperIdentityField j (encryptIdentityEntry pm.encryption_manager e)) }).1.notes =
      pm.notes ∧
    (pm2.import_envelope { pm.export_envelope now with
        identities := (pm.export_envelope now).identities.set i
          (tamperIdentityField j (encryptIdentityEntry pm.encryption_manager e)) }).1.cards =
      pm.cards ∧
    (pm2.import_envelope { pm.export_envelope now with
        identities := (pm.export_envelope now).identities.set i
          (tamperIdentityField j (encryptIdentityEntry pm.encryption_manager e)) }).1.identities =
      pm.identities.eraseIdx i ∧
    (pm2.import_envelope { pm.export_envelope now with
        identities := (pm.export_envelope now).identities.set i
          (tamperIdentityField j (encryptIdentityEntry pm.encryption_manager e)) }).1.files =
      pm.files := by
  have hkey : (EncryptionManager.mk pm2.master_password pm.encryption_manager.salt).derivedKey
      = pm.encryption_manager.derivedKey := by
    simp [EncryptionManager.derivedKey, hmp]
  have hp0 := importLoop_map (decryptPasswordEntry ⟨pm2.master_password, pm.encryption_manager.salt⟩)
    (encryptPasswordEntry pm.encryption_manager) (fun e => e.category) (fun d => d.title)
    "Warning: Could not decrypt password entry " pm.passwords
    (fun x _ => decryptPasswordEntry_encrypt _ _ x hkey)
  have hn0 := importLoop_map (decryptSecureNote ⟨pm2.master_password, pm.encryption_manager.salt⟩)
    (encryptSecureNote pm.encryption_manager) (fun e => e.category) (fun d => d.title)
    "Warning: Could not decrypt note " pm.notes
    (fun x _ => decryptSecureNote_encrypt _ _ x hkey)
  have hc0 := importLoop_map (decryptCardEntry ⟨pm2.master_password, pm.encryption_manager.salt⟩)
    (encryptCardEntry pm.encryption_manager) (fun e => e.category) (fun d => d.title)
    "Warning: Could not decrypt card entry " pm.cards
    (fun x _ => decryptCardEntry_encrypt _ _ x hkey)
  have hset := importLoop_map_set
    (decryptIdentityEntry ⟨pm2.master_password, pm.encryption_manager.salt⟩)
    (encryptIdentityEntry pm.encryption_manager) (fun e => e.category) (fun d => d.title)
    "Warning: Could not decrypt identity entry " pm.identities
    (fun x _ => decryptIdentityEntry_encrypt _ _ x hkey)
    (tamperIdentityField j (encryptIdentityEntry pm.encryption_manager e)) "InvalidToken"
    (decryptIdentityEntry_tamper _ _ e j hkey)
  have hf0 := importLoop_map (decryptFileEntry ⟨pm2.master_password, pm.encryption_manager.salt⟩)
    (encryptFileEntry pm.encryption_manager) (fun e => e.category) (fun d => d.title)
    "Warning: Could not decrypt file " pm.files
    (fun x _ => decryptFileEntry_encrypt _ _ x hkey)
  simp [PasswordManager.import_envelope, PasswordManager.export_envelope,
    EncryptionManager.get_salt, importPasswords, importNotes, importCards,
    importIdentities, importFiles, (hp0 _).1, (hn0 _).1, (hc0 _).1, hset, (hf0 _).1]

theorem import_envelope_tamper_file (pm pm2 : PasswordManager) (now : String)
    (hmp : pm2.master_password = pm.encryption_manager.master_password)
    (e : FileEntry) (i j : Nat) :
    (pm2.import_envelope { pm.export_envelope now with
        files := (pm.export_envelope now).files.set i
          (tamperFileField j (encryptFileEntry pm.encryption_manager e)) }).1.passwords =
      pm.passwords ∧
    (pm2.import_envelope { pm.export_envelope now with
        files := (pm.export_envelope now).files.set i
          (tamperFileField j (encryptFileEntry pm.encryption_manager e)) }).1.notes =
      pm.notes ∧
    (pm2.import_envelope { pm.export_envelope now with
        files := (pm.export_envelope now).files.set i
          (tamperFileField j (encryptFileEntry pm.encryption_manager e)) }).1.cards =
      pm.cards ∧
    (pm2.import_envelope { pm.export_envelope now with
        files := (pm.export_envelope now).files.set i
          (tamperFileField j (encryptFileEntry pm.encryption_manager e)) }).1.identities =
      pm.identities ∧
    (pm2.import_envelope { pm.export_envelope now with
        files := (pm.export_envelope now).files.set i
          (tamperFileField j (encryptFileEntry pm.encryption_manager e)) }).1.files =
      pm.files.eraseIdx i := by
  have hkey : (EncryptionManager.mk pm2.master_password pm.encryption_manager.salt).derivedKey
      = pm.encryption_manager.derivedKey := by
    simp [EncryptionManager.derivedKey, hmp]
  have hp0 := importLoop_map (decryptPasswordEntry ⟨pm2.master_password, pm.encryption_manager.salt⟩)
    (encryptPasswordEntry pm.encryption_manager) (fun e => e.category) (fun d => d.title)
    "Warning: Could not decrypt password entry " pm.passwords
    (fun x _ => decryptPasswordEntry_encrypt _ _ x hkey)
  have hn0 := importLoop_map (decryptSecureNote ⟨pm2.master_password, pm.encryption_manager.salt⟩)
    (encryptSecureNote pm.encryption_manager) (fun e => e.category) (fun d => d.title)
    "Warning: Could not decrypt note " pm.notes
    (fun x _ => decryptSecureNote_encrypt _ _ x hkey)
  have hc0 := importLoop_map (decryptCardEntry ⟨pm2.master_password, pm.encryption_manager.salt⟩)
    (encryptCardEntry pm.encryption_manager) (fun e => e.category) (fun d => d.title)
    "Warning: Could not decrypt card entry " pm.cards
    (fun x _ => decryptCardEntry_encrypt _ _ x hkey)
  have hi0 := importLoop_map (decryptIdentityEntry ⟨pm2.master_password, pm.encryption_manager.salt⟩)
    (encryptIdentityEntry pm.encryption_manager) (fun e => e.category) (fun d => d.title)
    "Warning: Could not decrypt identity entry " pm.identities
    (fun x _ => decryptIdentityEntry_encrypt _ _ x hkey)
  have hset := importLoop_map_set
    (decryptFileEntry ⟨pm2.master_password, pm.encryption_manager.salt⟩)
    (encryptFileEntry pm.encryption_manager) (fun e => e.category) (fun d => d.title)
    "Warning: Could not decrypt file " pm.files
    (fun x _ => decryptFileEntry_encrypt _ _ x hkey)
    (tamperFileField j (encryptFileEntry pm.encryption_manager e)) "InvalidToken"
    (decryptFileEntry_tamper _ _ e j hkey)
  simp [PasswordManager.import_envelope, PasswordManager.export_envelope,
    EncryptionManager.get_salt, importPasswords, importNotes, importCards,
    importIdentities, importFiles, (hp0 _).1, (hn0 _).1, (hc0 _).1, (hi0 _).1, hset]

theorem import_envelope_spec (pm : PasswordManager) (env : EncEnvelope) :
    (pm.import_envelope env).1.passwords =
      env.passwords.filterMap (fun d => (decryptPasswordEntry (importKeyManager pm env) d).toOption) ∧
    (pm.import_envelope env).1.notes =
      env.notes.filterMap (fun d => (decryptSecureNote (importKeyManager pm env) d).toOption) ∧
    (pm.import_envelope env).1.cards =
      env.cards.filterMap (fun d => (decryptCardEntry (importKeyManager pm env) d).toOption) ∧
    (pm.import_envelope env).1.identities =
      env.identities.filterMap (fun d => (decryptIdentityEntry (importKeyManager pm env) d).toOption) ∧
    (pm.import_envelope env).1.files =
      env.files.filterMap (fun d => (decryptFileEntry (importKeyManager pm env) d).toOption) ∧
    (pm.import_envelope env).2.length =
      env.passwords.countP (fun d => (decryptPasswordEntry (importKeyManager pm env) d).toOption.isNone) +
      env.notes.countP (fun d => (decryptSecureNote (importKeyManager pm env) d).toOption.isNone) +
      env.cards.countP (fun d => (decryptCardEntry (importKeyManager pm env) d).toOption.isNone) +
      env.identities.countP (fun d => (decryptIdentityEntry (importKeyManager pm env) d).toOption.isNone) +
      env.files.countP (fun d => (decryptFileEntry (importKeyManager pm env) d).toOption.isNone) := by
  cases hs : env.encryption_salt with
  | none =>
    simp [PasswordManager.import_envelope, importKeyManager, hs, importPasswords,
      importNotes, importCards, importIdentities, importFiles, importLoop_records,
      importLoop_warnings]
    omega
  | some salt =>
    simp [PasswordManager.import_envelope, importKeyManager, hs, importPasswords,
      importNotes, importCards, importIdentities, importFiles, importLoop_records,
      importLoop_warnings]
    omega

/-- C1: importing the bytes produced by export under the same master
password restores all five record collections field-for-field (the
envelope `created` timestamp is metadata of the document and is not part
of the restored state), with no skipped-record warning.  The hypothesis is
the constructor invariant that the session `EncryptionManager` was built
from the manager's own master password. -/
theorem claim_C1_export_import_roundtrip (pm : PasswordManager) (now : String)
    (hmp : pm.encryption_manager.master_password = pm.master_password) :
    ∃ pmr warns, pm.import_data (pm.export_data now) = .ok (pmr, warns) ∧
      pmr.passwords = pm.passwords ∧ pmr.notes = pm.notes ∧ pmr.cards = pm.cards ∧
      pmr.identities = pm.identities ∧ pmr.files = pm.files ∧ warns = [] := by
  obtain ⟨h1, h2, h3, h4, h5, h6, h7⟩ := import_envelope_export_ok pm pm now hmp.symm
  refine ⟨(pm.import_envelope (pm.export_envelope now)).1,
    (pm.import_envelope (pm.export_envelope now)).2, ?_, h1, h2, h3, h4, h5, h6⟩
  rw [export_data_parse]

/-- C1 witness: the round trip at a concrete one-record-per-collection
vault. -/
theorem claim_C1_witness :
    ∃ pmr warns, pmSample.import_data (pmSample.export_data "t1") = .ok (pmr, warns) ∧
      pmr.passwords = pmSample.passwords ∧ pmr.notes = pmSample.notes ∧
      pmr.cards = pmSample.cards ∧ pmr.identities = pmSample.identities ∧
      pmr.files = pmSample.files ∧ warns = [] :=
  claim_C1_export_import_roundtrip pmSample "t1" rfl

/-- C2: record-granular failure isolation.  Part 1: for every well-formed
envelope, the loaded collections are exactly the per-record decrypt
successes (a record loads iff all of its sensitive fields decrypt under
the key derived for this import), with one warning per failed record.
Part 2: decoding an export under a different master password yields zero
records from all five collections and one warning per record attempted,
with no exception.  Parts 3-7: tampering with any one ciphertext token of
one exported record (any field of any of the five kinds) makes exactly
that record fail while every other record still decrypts. -/
theorem claim_C2_record_isolation :
    (∀ (pm : PasswordManager) (env : EncEnvelope),
      (pm.import_envelope env).1.passwords =
        env.passwords.filterMap (fun d => (decryptPasswordEntry (importKeyManager pm env) d).toOption) ∧
      (pm.import_envelope env).1.notes =
        env.notes.filterMap (fun d => (decryptSecureNote (importKeyManager pm env) d).toOption) ∧
      (pm.import_envelope env).1.cards =
        env.cards.filterMap (fun d => (decryptCardEntry (importKeyManager pm env) d).toOption) ∧
      (pm.import_envelope env).1.identities =
        env.identities.filterMap (fun d => (decryptIdentityEntry (importKeyManager pm env) d).toOption) ∧
      (pm.import_envelope env).1.files =
        env.files.filterMap (fun d => (decryptFileEntry (importKeyManager pm env) d).toOption) ∧
      (pm.import_envelope env).2.length =
        env.passwords.countP (fun d => (decryptPasswordEntry (importKeyManager pm env) d).toOption.isNone) +
        env.notes.countP (fun d => (decryptSecureNote (importKeyManager pm env) d).toOption.isNone) +
        env.cards.countP (fun d => (decryptCardEntry (importKeyManager pm env) d).toOption.isNone) +
        env.identities.countP (fun d => (decryptIdentityEntry (importKeyManager pm env) d).toOption.isNone) +
        env.files.countP (fun d => (decryptFileEntry (importKeyManager pm env) d).toOption.isNone)) ∧
    (∀ (pm pm2 : PasswordManager) (now : String),
      pm2.master_password ≠ pm.encryption_manager.master_password →
      (pm2.import_envelope (pm.export_envelope now)).1.passwords = [] ∧
      (pm2.import_envelope (pm.export_envelope now)).1.notes = [] ∧
      (pm2.import_envelope (pm.export_envelope now)).1.cards = [] ∧
      (pm2.import_envelope (pm.export_envelope now)).1.identities = [] ∧
      (pm2.import_envelope (pm.export_envelope now)).1.files = [] ∧
      (pm2.import_envelope (pm.export_envelope now)).2.length =
        pm.passwords.length + pm.notes.length + pm.cards.length +
        pm.identities.length + pm.files.length) ∧
    (∀ (pm pm2 : PasswordManager) (now : String),
      pm2.master_password = pm.encryption_manager.master_password →
      ∀ (e : PasswordEntry) (i j : Nat),
      (pm2.import_envelope { pm.export_envelope now with
          passwords := (pm.export_envelope now).passwords.set i
            (tamperPasswordField j (encryptPasswordEntry pm.encryption_manager e)) }).1.passwords =
        pm.passwords.eraseIdx i ∧
      (pm2.import_envelope { pm.export_envelope now with
          passwords := (pm.export_envelope now).passwords.set i
            (tamperPasswordField j (encryptPasswordEntry pm.encryption_manager e)) }).1.notes =
        pm.notes ∧
      (pm2.import_envelope { pm.export_envelope now with
          passwords := (pm.export_envelope now).passwords.set i
            (tamperPasswordField j (encryptPasswordEntry pm.encryption_manager e)) }).1.cards =
        pm.cards ∧
      (pm2.import_envelope { pm.export_envelope now with
          passwords := (pm.export_envelope now).passwords.set i
            (tamperPasswordField j (encryptPasswordEntry pm.encryption_manager e)) }).1.identities =
        pm.identities ∧
      (pm2.import_envelope { pm.export_envelope now with
          passwords := (pm.export_envelope now).passwords.set i
            (tamperPasswordField j (encryptPasswordEntry pm.encryption_manager e)) }).1.files =
        pm.files) ∧
    (∀ (pm pm2 : PasswordManager) (now : String),
      pm2.master_password = pm.encryption_manager.master_password →
      ∀ (e : SecureNote) (i : Nat),
      (pm2.import_envelope { pm.export_envelope now with
          notes := (pm.export_envelope now).notes.set i
            (tamperNoteField (encryptSecureNote pm.encryption_manager e)) }).1.passwords =
        pm.passwords ∧
      (pm2.import_envelope { pm.export_envelope now with
          notes := (pm.export_envelope now).notes.set i
            (tamperNoteField (encryptSecureNote pm.encryption_manager e)) }).1.notes =
        pm.notes.eraseIdx i ∧
      (pm2.import_envelope { pm.export_envelope now with
          notes := (pm.export_envelope now).notes.set i
            (tamperNoteField (encryptSecureNote pm.encryption_manager e)) }).1.cards =
        pm.cards ∧
      (pm2.import_envelope { pm.export_envelope now with
          notes := (pm.export_envelope now).notes.set i
            (tamperNoteField (encryptSecureNote pm.encryption_manager e)) }).1.identities =
        pm.identities ∧
      (pm2.import_envelope { pm.export_envelope now with
          notes := (pm.export_envelope now).notes.set i
            (tamperNoteField (encryptSecureNote pm.encryption_manager e)) }).1.files =
        pm.files) ∧
    (∀ (pm pm2 : PasswordManager) (now : String),
      pm2.master_password = pm.encryption_manager.master_password →
      ∀ (e : CardEntry) (i j : Nat),
      (pm2.import_envelope { pm.export_envelope now with
          cards := (pm.export_envelope now).cards.set i
            (tamperCardField j (encryptCardEntry pm.encryption_manager e)) }).1.passwords =
        pm.passwords ∧
      (pm2.import_envelope { pm.export_envelope now with
          cards := (pm.export_envelope now).cards.set i
            (tamperCardField j (encryptCardEntry pm.encryption_manager e)) }).1.notes =
        pm.notes ∧
      (pm2.import_envelope { pm.export_envelope now with
          cards := (pm.export_envelope now).cards.set i
            (tamperCardField j (encryptCardEntry pm.encryption_manager e)) }).1.cards =
        pm.cards.eraseIdx i ∧
      (pm2.import_envelope { pm.export_envelope now with
          cards := (pm.export_envelope now).cards.set i
            (tamperCardField j (encryptCardEntry pm.encryption_manager e)) }).1.identities =
        pm.identities ∧
      (pm2.import_envelope { pm.export_envelope now with
          cards := (pm.export_envelope now).cards.set i
            (tamperCardField j (encryptCardEntry pm.encryption_manager e)) }).1.files =
        pm.files) ∧
    (∀ (pm pm2 : PasswordManager) (now : String),
      pm2.master_password = pm.encryption_manager.master_password →
      ∀ (e : IdentityEntry) (i j : Nat),
      (pm2.import_envelope { pm.export_envelope now with
          identities := (pm.export_envelope now).identities.set i
            (tamperIdentityField j (encryptIdentityEntry pm.encryption_manager e)) }).1.passwords =
        pm.passwords ∧
      (pm2.import_envelope { pm.export_envelope now with
          identities := (pm.export_envelope now).identities.set i
            (tamperIdentityField j (encryptIdentityEntry pm.encryption_manager e)) }).1.notes =
        pm.notes ∧
      (pm2.import_envelope { pm.export_envelope now with
          identities := (pm.export_envelope now).identities.set i
            (tamperIdentityField j (encryptIdentityEntry pm.encryption_manager e)) }).1.cards =
        pm.cards ∧
      (pm2.import_envelope { pm.export_envelope now with
          identities := (pm.export_envelope now).identities.set i
            (tamperIdentityField j (encryptIdentityEntry pm.encryption_manager e)) }).1.identities =
        pm.identities.eraseIdx i ∧
      (pm2.import_envelope { pm.export_envelope now with
          identities := (pm.export_envelope now).identities.set i
            (tamperIdentityField j (encryptIdentityEntry pm.encryption_manager e)) }).1.files =
        pm.files) ∧
    (∀ (pm pm2 : PasswordManager) (now : String),
      pm2.master_password = pm.encryption_manager.master_password →
      ∀ (e : FileEntry) (i j : Nat),
      (pm2.import_envelope { pm.export_envelope now with
          files := (pm.export_envelope now).files.set i
            (tamperFileField j (encryptFileEntry pm.encryption_manager e)) }).1.passwords =
        pm.passwords ∧
      (pm2.import_envelope { pm.export_envelope now with
          files := (pm.export_envelope now).files.set i
            (tamperFileField j (encryptFileEntry pm.encryption_manager e)) }).1.notes =
        pm.notes ∧
      (pm2.import_envelope { pm.export_envelope now with
          files := (pm.export_envelope now).files.set i
            (tamperFileField j (encryptFileEntry pm.encryption_manager e)) }).1.cards =
        pm.cards ∧
      (pm2.import_envelope { pm.export_envelope now with
          files := (pm.export_envelope now).files.set i
            (tamperFileField j (encryptFileEntry pm.encryption_manager e)) }).1.identities =
        pm.identities ∧
      (pm2.import_envelope { pm.export_envelope now with
          files := (pm.export_envelope now).files.set i
            (tamperFileField j (encryptFileEntry pm.encryption_manager e)) }).1.files =
        pm.files.eraseIdx i) :=
  ⟨import_envelope_spec,
   import_envelope_export_wrong,
   fun pm pm2 now hmp e i j => import_envelope_tamper_password pm pm2 now hmp e i j,
   fun pm pm2 now hmp e i => import_envelope_tamper_note pm pm2 now hmp e i,
   fun pm pm2 now hmp e i j => import_envelope_tamper_card pm pm2 now hmp e i j,
   fun pm pm2 now hmp e i j => import_envelope_tamper_identity pm pm2 now hmp e i j,
   fun pm pm2 now hmp e i j => import_envelope_tamper_file pm pm2 now hmp e i j⟩

/-- C2 witness: concrete instances of all three parts — the decode
characterization at a concrete envelope, the wrong-password import losing
all five sample records with five warnings, and a concrete tampered
password record being the only one dropped. -/
theorem claim_C2_witness :
    (pmSample.import_envelope (pmSample.export_envelope "t1")).1.passwords =
      (pmSample.export_envelope "t1").passwords.filterMap
        (fun d => (decryptPasswordEntry
          (importKeyManager pmSample (pmSample.export_envelope "t1")) d).toOption) ∧
    (pmWrong.import_envelope (pmSample.export_envelope "t1")).1.passwords = [] ∧
    (pmWrong.import_envelope (pmSample.export_envelope "t1")).2.length = 5 ∧
    (pmSample.import_envelope { pmSample.export_envelope "t1" with
        passwords := (pmSample.export_envelope "t1").passwords.set 0
          (tamperPasswordField 0
            (encryptPasswordEntry pmSample.encryption_manager passwordSample)) }).1.passwords =
      [] ∧
    (pmSample.import_envelope { pmSample.export_envelope "t1" with
        passwords := (pmSample.export_envelope "t1").passwords.set 0
          (tamperPasswordField 0
            (encryptPasswordEntry pmSample.encryption_manager passwordSample)) }).1.notes =
      pmSample.notes := by
  have h1 := (claim_C2_record_isolation.1 pmSample (pmSample.export_envelope "t1")).1
  have h2 := claim_C2_record_isolation.2.1 pmSample pmWrong "t1" (by decide)
  have h3 := claim_C2_record_isolation.2.2.1 pmSample pmSample "t1" rfl passwordSample 0 0
  exact ⟨h1, h2.1, h2.2.2.2.2.2, h3.1, h3.2.1⟩

/-- C3: a byte sequence that does not start with the 22-byte magic header
is rejected by `is_valid_lp_file` (false) and by `import_data`
(`ValueError`, modelled as the format-error result) — by construction the
error is produced before the envelope is parsed, so no field decryption is
attempted. -/
theorem claim_C3_format_rejection (data : List Nat) (pm : PasswordManager)
    (h : ¬ lp_header.isPrefixOf data) :
    is_valid_lp_file (some data) = false ∧
    pm.import_data data =
      .error "Invalid .lp file format. This file was not created by LuckeePass." := by
  constructor
  · simp only [is_valid_lp_file]
    exact Bool.not_eq_true _ ▸ (by simpa using h)
  · simp [PasswordManager.import_data, h]

/-- C3 witness: a concrete three-byte non-header file. -/
theorem claim_C3_witness :
    is_valid_lp_file (some [1, 2, 3]) = false ∧
    pmSample.import_data [1, 2, 3] =
      .error "Invalid .lp file format. This file was not created by LuckeePass." :=
  claim_C3_format_rejection [1, 2, 3] pmSample (by decide)

/-- C4: the salt embedded in an exported envelope is exactly the session
manager's salt, and every field token in that envelope was produced under
the key derived from the session master password and that same salt;
conversely, an import derives its decryption key from the embedded salt
(the manager installed for decryption is built from it, not from the
session salt), so a session holding the same master password but any other
session salt still restores every record of the envelope. -/
theorem claim_C4_envelope_salt (pm : PasswordManager) (now : String) :
    (pm.export_envelope now).encryption_salt = some pm.encryption_manager.salt ∧
    (∀ tok ∈ envelopeTokens (pm.export_envelope now),
      tok.key = pm.encryption_manager.derivedKey) ∧
    (∀ (env : EncEnvelope) (salt : List Nat), env.encryption_salt = some salt →
      (pm.import_envelope env).1.encryption_manager = ⟨pm.master_password, salt⟩) ∧
    (∀ pm2 : PasswordManager, pm2.master_password = pm.encryption_manager.master_password →
      (pm2.import_envelope (pm.export_envelope now)).1.passwords = pm.passwords ∧
      (pm2.import_envelope (pm.export_envelope now)).1.notes = pm.notes ∧
      (pm2.import_envelope (pm.export_envelope now)).1.cards = pm.cards ∧
      (pm2.import_envelope (pm.export_envelope now)).1.identities = pm.identities ∧
      (pm2.import_envelope (pm.export_envelope now)).1.files = pm.files) := by
  refine ⟨rfl, export_tokens_key pm now,
    fun env salt hs => import_envelope_em pm env salt hs, ?_⟩
  intro pm2 h
  obtain ⟨h1, h2, h3, h4, h5, _, _⟩ := import_envelope_export_ok pm pm2 now h
  exact ⟨h1, h2, h3, h4, h5⟩

/-- C4 witness: at the concrete sample vault, with a second session whose
salt differs from the export but whose master password matches. -/
theorem claim_C4_witness :
    (pmSample.export_envelope "t1").encryption_salt = some pmSample.encryption_manager.salt ∧
    (pmSample.import_envelope (pmSample.export_envelope "t1")).1.encryption_manager =
      ⟨pmSample.master_password, pmSample.encryption_manager.salt⟩ ∧
    (pmOtherSalt.import_envelope (pmSample.export_envelope "t1")).1.passwords =
      pmSample.passwords := by
  have h := claim_C4_envelope_salt pmSample "t1"
  exact ⟨h.1, h.2.2.1 (pmSample.export_envelope "t1") pmSample.encryption_manager.salt rfl,
    (h.2.2.2 pmOtherSalt rfl).1⟩

/-- C5 counterexample: a run in which the write dies immediately
(`fail_after = 0`) reports failure yet leaves the vault file truncated to
the empty prefix of the new bytes — the previously existing content
`[9]` is gone, because `open(.., "wb")` truncated it before the write. -/
theorem claim_C5_counterexample :
    (pmSample.save_data "t1" (some [9]) (some 0)).2 = false ∧
    (pmSample.save_data "t1" (some [9]) (some 0)).1 ≠ some [9] ∧
    (pmSample.save_data "t1" (some [9]) (some 0)).1 = some [] := by
  have hlen : 0 < (pmSample.export_data "t1").length := by
    simp [PasswordManager.export_data, lp_header]
  refine ⟨?_, ?_, ?_⟩ <;> simp [PasswordManager.save_data, hlen]

/-- C5 amended: `save_data` encodes the vault and writes it directly to the
vault file path through a truncating open, with no temporary file and no
rename; a write that fails after `k` bytes leaves the file holding the
first `k` bytes of the new export (the previous on-disk content is lost
even though the save reports failure), and a completed write leaves the
full export bytes. -/
theorem claim_C5_truncating_save (pm : PasswordManager) (now : String)
    (old_file : Option (List Nat)) (k : Nat) (h : k < (pm.export_data now).length) :
    pm.save_data now old_file (some k) = (some ((pm.export_data now).take k), false) ∧
    pm.save_data now old_file none = (some (pm.export_data now), true) := by
  constructor <;> simp [PasswordManager.save_data, h]

/-- C5 witness: the partial-write and full-write shapes at the sample
vault. -/
theorem claim_C5_witness :
    pmSample.save_data "t1" (some [9]) (some 3) =
      (some ((pmSample.export_data "t1").take 3), false) ∧
    pmSample.save_data "t1" (some [9]) none = (some (pmSample.export_data "t1"), true) :=
  claim_C5_truncating_save pmSample "t1" (some [9]) 3
    (by simp [PasswordManager.export_data, lp_header])

/-- C6 counterexample: when a load fails (here: a three-byte file with no
magic header, so `import_data` raises a format error), the engine clears
passwords, notes, cards, identities and the category set — but the `files`
collection keeps its previous contents, so the engine does not end in the
state of an empty vault; and `load_data` returns nothing, the reason is
only printed. -/
theorem claim_C6_counterexample :
    pmSample.import_data [1, 2, 3] =
      .error "Invalid .lp file format. This file was not created by LuckeePass." ∧
    (pmSample.load_data (.content [1, 2, 3])).files = [fileSample] ∧
    (pmSample.load_data (.content [1, 2, 3])).files ≠ [] ∧
    (pmSample.load_data (.content [1, 2, 3])).passwords = [] := by
  have him : pmSample.import_data [1, 2, 3] =
      .error "Invalid .lp file format. This file was not created by LuckeePass." := by
    simp [PasswordManager.import_data, lp_header, List.isPrefixOf]
  refine ⟨him, ?_, ?_, ?_⟩ <;>
    · simp [PasswordManager.load_data, him]
      try simp [pmSample]

/-- C6 amended: whenever `import_data` raises on a nonempty vault file,
`load_data` catches the exception, resets `passwords`, `notes`, `cards`,
`identities` and the category set to empty, leaves the `files` collection
untouched, and surfaces nothing to the caller (the reason is printed
only). -/
theorem claim_C6_load_failure_reset (pm : PasswordManager) (data : List Nat) (msg : String)
    (h : pm.import_data data = .error msg) (hne : data ≠ []) :
    pm.load_data (.content data) =
      { pm with passwords := [], notes := [], cards := [], identities := [],
                categories := ∅ } := by
  have hlen : ¬ data.length = 0 := by simpa using hne
  simp [PasswordManager.load_data, hlen, h]

/-- C6 witness: the reset shape at the concrete failing input. -/
theorem claim_C6_witness :
    pmSample.load_data (.content [1, 2, 3]) =
      { pmSample with passwords := [], notes := [], cards := [], identities := [],
                      categories := ∅ } :=
  claim_C6_load_failure_reset pmSample [1, 2, 3]
    "Invalid .lp file format. This file was not created by LuckeePass."
    (by simp [PasswordManager.import_data, lp_header, List.isPrefixOf]) (by decide)

/-- C7: `favorites` returns exactly the records whose favorite flag is set,
tagged with the collection they came from, in the fixed order passwords,
notes, cards, identities, files, preserving each collection's internal
order; in particular one favorited record per collection comes back as the
five items in that order with the five display labels. -/
theorem claim_C7_favorites_order (pm : PasswordManager) :
    pm.favorites =
      (pm.passwords.filter (fun e => e.is_favorite)).map FavItem.password ++
      (pm.notes.filter (fun n => n.is_favorite)).map FavItem.note ++
      (pm.cards.filter (fun c => c.is_favorite)).map FavItem.card ++
      (pm.identities.filter (fun i => i.is_favorite)).map FavItem.identity ++
      (pm.files.filter (fun f => f.is_favorite)).map FavItem.file ∧
    (∀ (mp : String) (cats : Finset String) (em : EncryptionManager)
       (p : PasswordEntry) (n : SecureNote) (c : CardEntry) (i : IdentityEntry)
       (f : FileEntry),
      p.is_favorite = true → n.is_favorite = true → c.is_favorite = true →
      i.is_favorite = true → f.is_favorite = true →
      (PasswordManager.mk mp [p] [n] [c] [i] [f] cats em).favorites =
        [FavItem.password p, FavItem.note n, FavItem.card c, FavItem.identity i,
         FavItem.file f] ∧
      ((PasswordManager.mk mp [p] [n] [c] [i] [f] cats em).favorites.map FavItem.typeLabel) =
        ["Password", "Secure Note", "Card", "Identity", "File"]) := by
  refine ⟨favorites_spec pm, ?_⟩
  intro mp cats em p n c i f hp hn hc hi hf
  have h := favorites_spec (PasswordManager.mk mp [p] [n] [c] [i] [f] cats em)
  constructor
  · simp [h, hp, hn, hc, hi, hf]
  · simp [h, hp, hn, hc, hi, hf, FavItem.typeLabel]

/-- C7 witness: the five sample records, each favorited, in the fixed
order. -/
theorem claim_C7_witness :
    (PasswordManager.mk "m" [passwordSample] [noteSample] [cardSample] [identitySample]
      [fileSample] ∅ emSample).favorites =
      [FavItem.password passwordSample, FavItem.note noteSample, FavItem.card cardSample,
       FavItem.identity identitySample, FavItem.file fileSample] :=
  ((claim_C7_favorites_order pmSample).2 "m" ∅ emSample passwordSample noteSample
    cardSample identitySample fileSample rfl rfl rfl rfl rfl).1

/-- C8 counterexample: deleting the only record (category Work) from a
session whose category set is empty removes the record but does not add
its category to the category set — `delete_X` performs no stamping and no
category bookkeeping, contradicting the claim that every mutation
operation including `delete_X` does both. -/
theorem claim_C8_counterexample :
    ((PasswordManager.mk "m" [workEntry] [] [] [] [] ∅ emSample).delete_password 0).passwords
      = [] ∧
    workEntry.category = "Work" ∧
    "Work" ∉
      ((PasswordManager.mk "m" [workEntry] [] [] [] [] ∅ emSample).delete_password 0).categories := by
  refine ⟨rfl, rfl, ?_⟩
  simp [PasswordManager.delete_password]

/-- C8 amended: `add_X` and `update_X` stamp the affected record's
`modified` timestamp to the current time and add its category to the
session category set, leaving `created` and all other collections
untouched; `delete_X` only removes the record at the index and changes
neither timestamps nor the category set; none of the fifteen operations
touches persistent storage (each is a pure state update); and every record
constructor sets `created = modified = now` once. -/
theorem claim_C8_mutation_stamping (pm : PasswordManager) (now : String)
    (e : PasswordEntry) (sn : SecureNote) (ce : CardEntry) (ie : IdentityEntry)
    (fe : FileEntry) (i : Nat)
    (hp : i < pm.passwords.length) (hn : i < pm.notes.length) (hc : i < pm.cards.length)
    (hi : i < pm.identities.length) (hf : i < pm.files.length) :
    (pm.add_password e now = { pm with
        passwords := pm.passwords ++ [{ e with modified := now }],
        categories := insert e.category pm.categories } ∧
     pm.update_password i e now = { pm with
        passwords := pm.passwords.set i { e with modified := now },
        categories := insert e.category pm.categories } ∧
     pm.delete_password i = { pm with passwords := pm.passwords.eraseIdx i }) ∧
    (pm.add_note sn now = { pm with
        notes := pm.notes ++ [{ sn with modified := now }],
        categories := insert sn.category pm.categories } ∧
     pm.update_note i sn now = { pm with
        notes := pm.notes.set i { sn with modified := now },
        categories := insert sn.category pm.categories } ∧
     pm.delete_note i = { pm with notes := pm.notes.eraseIdx i }) ∧
    (pm.add_card ce now = { pm with
        cards := pm.cards ++ [{ ce with modified := now }],
        categories := insert ce.category pm.categories } ∧
     pm.update_card i ce now = { pm with
        cards := pm.cards.set i { ce with modified := now },
        categories := insert ce.category pm.categories } ∧
     pm.delete_card i = { pm with cards := pm.cards.eraseIdx i }) ∧
    (pm.add_identity ie now = { pm with
        identities := pm.identities ++ [{ ie with modified := now }],
        categories := insert ie.category pm.categories } ∧
     pm.update_identity i ie now = { pm with
        identities := pm.identities.set i { ie with modified := now },
        categories := insert ie.category pm.categories } ∧
     pm.delete_identity i = { pm with identities := pm.identities.eraseIdx i }) ∧
    (pm.add_file fe now = { pm with
        files := pm.files ++ [{ fe with modified := now }],
        categories := insert fe.category pm.categories } ∧
     pm.update_file i fe now = { pm with
        files := pm.files.set i { fe with modified := now },
        categories := insert fe.category pm.categories } ∧
     pm.delete_file i = { pm with files := pm.files.eraseIdx i }) ∧
    ({ e with modified := now }).created = e.created ∧
    ({ sn with modified := now }).created = sn.created ∧
    ({ ce with modified := now }).created = ce.created ∧
    ({ ie with modified := now }).created = ie.created ∧
    ({ fe with modified := now }).created = fe.created ∧
    (∀ t u pw url nts cat fav att,
      (PasswordEntry.init t u pw url nts cat fav att now).created = now ∧
      (PasswordEntry.init t u pw url nts cat fav att now).modified = now) ∧
    (∀ t fd fname ftype fsize cat nts fav,
      (FileEntry.init t fd fname ftype fsize cat nts fav now).created = now ∧
      (FileEntry.init t fd fname ftype fsize cat nts fav now).modified = now) :=
  ⟨⟨rfl, rfl, rfl⟩, ⟨rfl, rfl, rfl⟩, ⟨rfl, rfl, rfl⟩, ⟨rfl, rfl, rfl⟩, ⟨rfl, rfl, rfl⟩,
   rfl, rfl, rfl, rfl, rfl,
   fun _ _ _ _ _ _ _ _ => ⟨rfl, rfl⟩, fun _ _ _ _ _ _ _ _ => ⟨rfl, rfl⟩⟩

/-- C8 witness: the add/update/delete shapes at the sample vault (one
record per collection, index 0). -/
theorem claim_C8_witness :
    pmSample.add_password workEntry "t2" = { pmSample with
      passwords := pmSample.passwords ++ [{ workEntry with modified := "t2" }],
      categories := insert workEntry.category pmSample.categories } ∧
    pmSample.delete_password 0 = { pmSample with
      passwords := pmSample.passwords.eraseIdx 0 } :=
  ⟨(claim_C8_mutation_stamping pmSample "t2" workEntry noteSample cardSample identitySample
      fileSample 0 (by decide) (by decide) (by decide) (by decide) (by decide)).1.1,
   (claim_C8_mutation_stamping pmSample "t2" workEntry noteSample cardSample identitySample
      fileSample 0 (by decide) (by decide) (by decide) (by decide) (by decide)).1.2.2⟩

/-- C9: `verify_master_password` is a total boolean check — it compares the
candidate against the stored bcrypt hash when one exists, returns false
(rather than raising) when no master password has ever been set, and also
returns false when the stored hash bytes are malformed (the `ValueError`
from `bcrypt.checkpw` is caught). -/
theorem claim_C9_verify_master_password (um : UserManager) (pw : String) :
    (um.hashed_master_password = none → um.verify_master_password pw = false) ∧
    (∀ p s, um.hashed_master_password = some (.wellFormed p s) →
      (um.verify_master_password pw = true ↔ pw = p)) ∧
    (∀ raw, um.hashed_master_password = some (.malformed raw) →
      um.verify_master_password pw = false) := by
  refine ⟨?_, ?_, ?_⟩
  · intro h
    simp [UserManager.verify_master_password, h]
  · intro p s h
    simp [UserManager.verify_master_password, h, bcrypt_checkpw]
  · intro raw h
    simp [UserManager.verify_master_password, h, bcrypt_checkpw]

/-- C9 witness: a fresh install (no stored hash) answers false, and a
stored hash of the sample password verifies exactly that password. -/
theorem claim_C9_witness :
    (UserManager.mk none none).verify_master_password "anything" = false ∧
    (UserManager.mk (some (.wellFormed "correct-horse" 7)) none).verify_master_password
      "correct-horse" = true ∧
    (UserManager.mk (some (.malformed [0])) none).verify_master_password
      "correct-horse" = false := by
  refine ⟨(claim_C9_verify_master_password (UserManager.mk none none) "anything").1 rfl,
    ?_,
    (claim_C9_verify_master_password (UserManager.mk (some (.malformed [0])) none)
      "correct-horse").2.2 [0] rfl⟩
  exact ((claim_C9_verify_master_password
    (UserManager.mk (some (.wellFormed "correct-horse" 7)) none)
    "correct-horse").2.1 "correct-horse" 7 rfl).2 rfl

/-- C10: evaluating `generate_password` at length 4 with only digits
enabled and a draw that produces all-lowercase characters exercises the
ensure-a-digit patch, which prepends one digit to `password[2:]` and
returns a 3-character password — the claimed length invariant fails on
this path (the source drops one extra character instead of replacing
one). -/
theorem claim_C10_length_bug :
    generate_password 4 false true false false (fun _ => 0) 0 0 0 =
      .ok ['0', 'a', 'a'] ∧
    (['0', 'a', 'a'] : List Char).length ≠ 4 := by
  constructor
  · rfl
  · decide
